import Mathlib

/-!
Verification of the requirement-parsing / step-execution / verification-
aggregation core of the `ai-visual-testing` framework.

The Lean definitions below are a shallow embedding of the Python sources
`src/models/models.py`, `src/parser/parser.py` and `src/executor/executor.py`:

* Python dataclass `__post_init__` validation is modelled by `Except`-valued
  smart constructors (`mkVerification`, `mkAction`, ..., `mkTestSuite`);
  a raised `ValueError` corresponds to `Except.error`.
* Python strings are modelled by Lean `String` (ASCII scope: the inputs the
  suite handles are plain ASCII requirement documents), and Python's regular
  expressions are modelled by a small backtracking matcher (`RE`, `matchRE`)
  with Python semantics: ordered alternation, greedy/lazy repetition,
  case-insensitive literals, and Python's `$` (end of string, or just before
  a final newline).
* Browser and AI interactions are opaque capabilities, passed as function
  parameters (`page`, `runAction`, `capture`, `verify`).
* Wall-clock data (timestamps, durations) and raw `evidence` dictionaries are
  outside the model; the corresponding record fields are kept as `Option`
  values left at `none` where the Python code would fill in clock values.

Scale used for `confidence`: the Python code stores a float in [0,100] and
only ever compares it against decimal constants, so it is modelled as `ℚ`.
-/

namespace AVT

/-! ## Python string primitives -/

/-- Python's `\s` / `str.strip` whitespace class (ASCII scope). -/
def pyIsSpace (c : Char) : Bool :=
  c = ' ' ∨ c = '\t' ∨ c = '\n' ∨ c = '\r' ∨ c = Char.ofNat 11 ∨ c = Char.ofNat 12

/-- Python's `\w` word-character class (ASCII scope). -/
def pyIsWord (c : Char) : Bool :=
  (('a' ≤ c ∧ c ≤ 'z') ∨ ('A' ≤ c ∧ c ≤ 'Z') ∨ ('0' ≤ c ∧ c ≤ '9') ∨ c = '_')

/-- ASCII `[A-Z]`. -/
def isUpperAZ (c : Char) : Bool := 'A' ≤ c ∧ c ≤ 'Z'

/-- ASCII `[a-z]`. -/
def isLowerAZ (c : Char) : Bool := 'a' ≤ c ∧ c ≤ 'z'

/-- ASCII letter (`[A-Z]` or `[a-z]` under `re.IGNORECASE`). -/
def isLetterAZ (c : Char) : Bool := isUpperAZ c ∨ isLowerAZ c

/-- The single-quote character. -/
def squote : Char := Char.ofNat 39

/-- The double-quote character. -/
def dquote : Char := Char.ofNat 34

/-- The regex class `["\']`. -/
def isQuote (c : Char) : Bool := c = dquote ∨ c = squote

/-- `str.strip` on a character list. -/
def pyStripL (l : List Char) : List Char :=
  ((l.dropWhile pyIsSpace).reverse.dropWhile pyIsSpace).reverse

/-- Python `str.strip()` (ASCII whitespace). -/
def pyStrip (s : String) : String := ⟨pyStripL s.data⟩

/-- Python `str.lower()` (ASCII scope). -/
def pyLower (s : String) : String := ⟨s.data.map Char.toLower⟩

/-- Python `needle in hay` (contiguous substring test). -/
def pyContains (hay needle : String) : Bool := decide (needle.data <:+: hay.data)

/-- Python `str.replace(old, new)` on lists, `old` nonempty
(left-to-right, non-overlapping).  For `old = []` the input is returned
unchanged (the sources never call `replace` with an empty pattern).
Structural recursion on a fuel that starts at the input length + 1: each
step consumes at least one input character, so the fuel never runs out. -/
def pyReplaceAux (old new : List Char) : Nat → List Char → List Char
  | 0, l => l
  | _ + 1, [] => []
  | fuel + 1, c :: rest =>
    if old ≠ [] ∧ old.isPrefixOf (c :: rest) then
      new ++ pyReplaceAux old new fuel ((c :: rest).drop old.length)
    else
      c :: pyReplaceAux old new fuel rest

/-- Python `str.replace(old, new)` on character lists. -/
def pyReplaceL (old new l : List Char) : List Char :=
  pyReplaceAux old new (l.length + 1) l

/-- Python `str.replace(old, new)`. -/
def pyReplace (s old new : String) : String := ⟨pyReplaceL old.data new.data s.data⟩

/-- Python `str.split('\n')` (keeps empty pieces). -/
def splitLinesAux : List Char → List Char → List String
  | [], acc => [⟨acc.reverse⟩]
  | c :: rest, acc =>
    if c = '\n' then (⟨acc.reverse⟩ : String) :: splitLinesAux rest []
    else splitLinesAux rest (c :: acc)

/-- Python `str.split('\n')`. -/
def pySplitLines (s : String) : List String := splitLinesAux s.data []

/-- Python `str.startswith` (case sensitive). -/
def pyStartsWith (s p : String) : Bool := p.data.isPrefixOf s.data

/-- Case-insensitive prefix test: `lit` is stored lower-cased and compared
against the lower-cased input (ASCII scope of `re.IGNORECASE`). -/
def ciIsPrefOf : List Char → List Char → Bool
  | [], _ => true
  | _ :: _, [] => false
  | l :: ls, c :: cs => l = c.toLower && ciIsPrefOf ls cs

/-! ## Data model (`src/models/models.py`) -/

/-- `StepStatus` enum. -/
inductive StepStatus where
  | passed | failed | warning | skipped | pending
deriving DecidableEq, Repr

/-- `ActionType` enum. -/
inductive ActionType where
  | click | type | fill | select | check | uncheck | navigate | wait | scroll
deriving DecidableEq, Repr

/-- `Severity` enum. -/
inductive Severity where
  | critical | major | minor | info
deriving DecidableEq, Repr

/-- The `.value` string of an `ActionType` member. -/
def ActionType.value : ActionType → String
  | .click => "click" | .type => "type" | .fill => "fill" | .select => "select"
  | .check => "check" | .uncheck => "uncheck" | .navigate => "navigate"
  | .wait => "wait" | .scroll => "scroll"

/-- `Verification` dataclass, after successful `__post_init__`
(`description` is never `None` afterwards: it defaults to `text`). -/
structure Verification where
  text : String
  severity : Severity
  description : String
deriving DecidableEq, Repr

/-- `Verification.__post_init__`: a raised `ValueError` is `Except.error`. -/
def mkVerification (text : String) (severity : Severity)
    (description : Option String) : Except String Verification :=
  let t := pyStrip text
  if t = "" then .error "Verification text cannot be empty"
  else
    .ok { text := t, severity := severity,
          description := match description with
            | some d => pyStrip d
            | none => t }

/-- `Action` dataclass, after successful `__post_init__`.
`wait_after_ms` is a Python `int`, so modelled as `ℤ`. -/
structure Action where
  type : ActionType
  target : String
  value : Option String
  description : String
  wait_after_ms : Int
deriving DecidableEq, Repr

/-- The value requirement of `Action.__post_init__` (`models.py` lines
114-122): `type`/`fill`/`select` require a non-blank value, which is stored
stripped; other action types keep their value untouched. -/
def actionValueCheck (ty : ActionType) (value : Option String) :
    Except String (Option String) :=
  if ty = .type ∨ ty = .fill ∨ ty = .select then
    match value with
    | none => .error ("Action type " ++ ty.value ++ " requires a value")
    | some v =>
      if pyStrip v = "" then
        .error ("Action value cannot be empty for type " ++ ty.value)
      else .ok (some (pyStrip v))
  else .ok value

/-- `Action.__post_init__` (`models.py` lines 101-138). -/
def mkAction (ty : ActionType) (target : String) (value : Option String)
    (description : Option String) (wait_after_ms : Int) : Except String Action :=
  if pyStrip target = "" then .error "Action target cannot be empty"
  else
    match actionValueCheck ty value with
    | .error e => .error e
    | .ok value' =>
      if wait_after_ms < 0 then
        .error "wait_after_ms must be >= 0"
      else if 60000 < wait_after_ms then
        .error "wait_after_ms must be <= 60000ms (60 seconds)"
      else
        .ok { type := ty, target := pyStrip target, value := value',
              description := match description with
                | none => ty.value ++ " " ++ pyStrip target
                | some d => pyStrip d,
              wait_after_ms := wait_after_ms }

/-- `Action(...)` with `wait_after_ms` omitted: the dataclass default is 500. -/
def mkActionDefaultWait (ty : ActionType) (target : String) (value : Option String)
    (description : Option String) : Except String Action :=
  mkAction ty target value description 500

/-- `Issue` dataclass, after successful `__post_init__`. -/
structure Issue where
  severity : Severity
  description : String
  step_number : Option Int
  element : Option String
  screenshot_path : Option String
deriving DecidableEq, Repr

/-- `Issue.__post_init__`. -/
def mkIssue (severity : Severity) (description : String) (step_number : Option Int)
    (element : Option String) (screenshot_path : Option String) : Except String Issue :=
  let d := pyStrip description
  if d = "" then .error "Issue description cannot be empty"
  else
    match step_number with
    | some n =>
      if n < 1 then .error "step_number must be >= 1"
      else .ok { severity := severity, description := d, step_number := some n,
                 element := element.map pyStrip,
                 screenshot_path := screenshot_path.map pyStrip }
    | none =>
      .ok { severity := severity, description := d, step_number := none,
            element := element.map pyStrip,
            screenshot_path := screenshot_path.map pyStrip }

/-- `VerificationResult` dataclass, after successful `__post_init__`.
The free-form `evidence` dictionary is outside the model. -/
structure VerificationResult where
  requirement : String
  passed : Bool
  confidence : ℚ
  issues : List Issue
  ai_reasoning : Option String
  duration_ms : Option Int
deriving DecidableEq, Repr

/-- `VerificationResult.__post_init__`. -/
def mkVerificationResult (requirement : String) (passed : Bool) (confidence : ℚ)
    (issues : List Issue) (ai_reasoning : Option String) (duration_ms : Option Int) :
    Except String VerificationResult :=
  let r := pyStrip requirement
  if r = "" then .error "Requirement text cannot be empty"
  else if ¬ (0 ≤ confidence ∧ confidence ≤ 100) then
    .error "Confidence must be between 0.0 and 100.0"
  else
    match duration_ms with
    | some d =>
      if d < 0 then .error "duration_ms must be >= 0"
      else .ok { requirement := r, passed := passed, confidence := confidence,
                 issues := issues, ai_reasoning := ai_reasoning.map pyStrip,
                 duration_ms := some d }
    | none =>
      .ok { requirement := r, passed := passed, confidence := confidence,
            issues := issues, ai_reasoning := ai_reasoning.map pyStrip,
            duration_ms := none }

/-- `PageState`: point-in-time page evidence.  `screenshot` is a byte string,
modelled as a list of byte values; `timestamp` is wall-clock data, outside the
model.  Instances are produced by the opaque browser capability
(`_capture_state`), so no smart constructor is needed by the claims. -/
structure PageState where
  url : String
  title : String
  screenshot : List Nat
  html : String
deriving DecidableEq, Repr

/-- `TestStep` dataclass, after successful `__post_init__`. -/
structure TestStep where
  step_number : Int
  description : String
  verifications : List Verification
  actions : List Action
  expected_page : Option String
  expected_elements : List String
deriving DecidableEq, Repr

/-- `TestStep.__post_init__` (`models.py` lines 299-343).  The
`expected_elements` emptiness check validates but does not strip. -/
def mkTestStep (step_number : Int) (description : String)
    (verifications : List Verification) (actions : List Action)
    (expected_page : Option String) (expected_elements : List String) :
    Except String TestStep :=
  if step_number < 1 then .error "Step number must be >= 1"
  else if 10000 < step_number then .error "Step number must be <= 10000"
  else
    let d := pyStrip description
    if d = "" then .error "Step description cannot be empty"
    else if expected_elements.any (fun e => pyStrip e = "") then
      .error "Expected element cannot be empty"
    else
      .ok { step_number := step_number, description := d,
            verifications := verifications, actions := actions,
            expected_page := expected_page.map pyStrip,
            expected_elements := expected_elements }

/-- `StepResult` dataclass, after successful `__post_init__`. -/
structure StepResult where
  step_number : Int
  description : String
  status : StepStatus
  verifications : List VerificationResult
  screenshot : Option (List Nat)
  html_snapshot : Option String
  issues : List Issue
  duration_ms : Option Int
  error_message : Option String
deriving DecidableEq, Repr

/-- `StepResult.__post_init__` (`models.py` lines 359-417). -/
def mkStepResult (step_number : Int) (description : String) (status : StepStatus)
    (verifications : List VerificationResult) (screenshot : Option (List Nat))
    (html_snapshot : Option String) (issues : List Issue)
    (duration_ms : Option Int) (error_message : Option String) :
    Except String StepResult :=
  if step_number < 1 then .error "Step number must be >= 1"
  else
    let d := pyStrip description
    if d = "" then .error "Step description cannot be empty"
    else if screenshot.any (fun b => b.isEmpty) then
      .error "Screenshot cannot be empty"
    else if duration_ms.any (fun n => n < 0) then
      .error "duration_ms must be >= 0"
    else
      .ok { step_number := step_number, description := d, status := status,
            verifications := verifications, screenshot := screenshot,
            html_snapshot := html_snapshot, issues := issues,
            duration_ms := duration_ms,
            error_message := error_message.map pyStrip }

/-- `TestSuite` dataclass, after successful `__post_init__`. -/
structure TestSuite where
  name : String
  steps : List TestStep
  global_requirements : List Verification
  description : Option String
  source_file : Option String
deriving DecidableEq, Repr

/-- `TestSuite.__post_init__` (`models.py` lines 429-482): name nonempty,
steps nonempty, step numbers free of duplicates (`len(nums) != len(set(nums))`)
and equal to their own ascending sort (`nums != sorted(nums)`). -/
def mkTestSuite (name : String) (steps : List TestStep)
    (global_requirements : List Verification) (description : Option String)
    (source_file : Option String) : Except String TestSuite :=
  if pyStrip name = "" then .error "Test suite name cannot be empty"
  else if steps.isEmpty then .error "Test suite must have at least one step"
  else if (steps.map TestStep.step_number).dedup.length
      ≠ (steps.map TestStep.step_number).length then
    .error "Step numbers must be unique"
  else if steps.map TestStep.step_number
      ≠ (steps.map TestStep.step_number).insertionSort (· ≤ ·) then
    .error "Step numbers must be sequential starting from 1"
  else
    .ok { name := pyStrip name, steps := steps,
          global_requirements := global_requirements,
          description := description.map pyStrip,
          source_file := source_file.map pyStrip }

/-! ## A small backtracking regex matcher with Python `re` semantics

Only the constructs used by `parser.py` are represented: case-insensitive
literals, single character classes, ordered alternation (Python tries
alternatives left to right), greedy `?`/`*`, the lazy `+` of a character
class (all captures in the source patterns are of the shape `([class]+?)`
except one, which is built from greedy pieces), numbered capture groups and
the un-anchored `$` (end of input or just before a final newline).  `fuel`
bounds the unfoldings of `starG`/`plusL`; every starred sub-pattern in the
source consumes at least one character per iteration, so a fuel of twice the
input length never runs out. -/

inductive RE where
  | eps
  | cls (p : Char → Bool)
  | lit (l : List Char)
  | seq (a b : RE)
  | alt (a b : RE)
  | opt (a : RE)
  | starG (a : RE)
  | plusL (p : Char → Bool)
  | grp (i : Nat) (a : RE)
  | dollar

/-- Captured groups: group index paired with the captured characters. -/
abbrev Caps := List (Nat × List Char)

/-- Backtracking matcher in continuation-passing style.  `rest` is a suffix
of the searched string (so `$` can be decided locally), `k` is invoked with
the suffix remaining after the current sub-pattern and the captures collected
so far; the overall result is the first success in Python's backtracking
order.  The recursion is structural on `fuel`, which bounds the depth of the
matcher's call nesting; `reMatchAt` supplies a budget far above what any of
the source patterns can use on the given input, so the `0` branch is
unreachable there. -/
def matchRE : Nat → RE → List Char → Caps →
    (List Char → Caps → Option (Caps × List Char)) → Option (Caps × List Char)
  | 0, _, _, _, _ => none
  | f + 1, re, rest, caps, k =>
    match re with
    | .eps => k rest caps
    | .cls p =>
      match rest with
      | [] => none
      | c :: rs => if p c then k rs caps else none
    | .lit l => if ciIsPrefOf l rest then k (rest.drop l.length) caps else none
    | .seq a b => matchRE f a rest caps (fun r c => matchRE f b r c k)
    | .alt a b =>
      match matchRE f a rest caps k with
      | some res => some res
      | none => matchRE f b rest caps k
    | .opt a =>
      match matchRE f a rest caps k with
      | some res => some res
      | none => k rest caps
    | .starG a =>
      match matchRE f a rest caps (fun r c => matchRE f (.starG a) r c k) with
      | some res => some res
      | none => k rest caps
    | .plusL p =>
      match rest with
      | [] => none
      | c :: rs =>
        if p c then
          match k rs caps with
          | some res => some res
          | none => matchRE f (.plusL p) rs caps k
        else none
    | .grp i a =>
      matchRE f a rest caps (fun r c => k r ((i, rest.take (rest.length - r.length)) :: c))
    | .dollar => if rest = [] ∨ rest = ['\n'] then k rest caps else none

/-- Attempt a match of `re` at the start of `s`; on success return the
captures and the suffix following the end of the match. -/
def reMatchAt (re : RE) (s : List Char) : Option (Caps × List Char) :=
  matchRE ((s.length + 4) * 100) re s [] (fun r c => some (c, r))

/-- Python `pattern.search(s)`: the leftmost position with a match wins. -/
def reSearch (re : RE) : List Char → Option (Caps × List Char)
  | [] => reMatchAt re []
  | c :: rest =>
    match reMatchAt re (c :: rest) with
    | some res => some res
    | none => reSearch re rest

theorem dropWhile_len_le {α : Type} (p : α → Bool) (l : List α) :
    (l.dropWhile p).length ≤ l.length := by
  induction l with
  | nil => simp [List.dropWhile]
  | cons c t ih =>
    by_cases h : p c <;> simp [List.dropWhile, h] <;> omega

/-- Python `pattern.search` for a `re.MULTILINE` pattern anchored with `^`:
only positions at the start of the string or just after a newline are tried.
`fuel` starts at the length + 1; each retry drops at least one character. -/
def reSearchLinesAux (re : RE) : Nat → List Char → Option (Caps × List Char)
  | 0, _ => none
  | fuel + 1, s =>
    match reMatchAt re s with
    | some res => some res
    | none =>
      if s.isEmpty then none
      else reSearchLinesAux re fuel ((s.dropWhile (fun c => ¬ c = '\n')).drop 1)

/-- Python `pattern.search` of a `^`-anchored `re.MULTILINE` pattern. -/
def reSearchLines (re : RE) (s : List Char) : Option (Caps × List Char) :=
  reSearchLinesAux re (s.length + 1) s

/-- Python `pattern.finditer(s)`: non-overlapping matches, scanning left to
right, resuming after the end of each match (advancing one position past a
zero-width match).  `fuel` starts at the length + 1; each match consumes at
least one character or forces a one-character advance. -/
def reFindIterAux (re : RE) : Nat → List Char → List Caps
  | 0, _ => []
  | fuel + 1, s =>
    match reSearch re s with
    | none => []
    | some (caps, restAfter) =>
      if restAfter.length < s.length then caps :: reFindIterAux re fuel restAfter
      else
        match s with
        | [] => [caps]
        | _ :: t => caps :: reFindIterAux re fuel t

/-- Python `pattern.finditer(s)`. -/
def reFindIter (re : RE) (s : List Char) : List Caps :=
  reFindIterAux re (s.length + 1) s

/-- `match.group(i)` of a successful search. -/
def capStr (caps : Caps) (i : Nat) : String :=
  match caps.find? (fun p => p.1 = i) with
  | some p => ⟨p.2⟩
  | none => ""

/-! ### The patterns of `parser.py`, as `RE` values -/

/-- Case-insensitive literal (pattern text lower-cased once here). -/
def litCI (s : String) : RE := .lit (s.data.map Char.toLower)

/-- Ordered alternation of a pattern list. -/
def altList : List RE → RE
  | [] => .eps
  | [r] => r
  | r :: rs => .alt r (altList rs)

/-- Sequencing of a pattern list. -/
def seqList : List RE → RE
  | [] => .eps
  | [r] => r
  | r :: rs => .seq r (seqList rs)

/-- Greedy `+` over a character class. -/
def plusGC (p : Char → Bool) : RE := .seq (.cls p) (.starG (.cls p))

/-- Greedy `*` over a character class. -/
def starGC (p : Char → Bool) : RE := .starG (.cls p)

/-- The class `[^"\']`. -/
def notQuote (c : Char) : Bool := ¬ isQuote c

/-- `["\']?`. -/
def optQuote : RE := .opt (.cls isQuote)

/-- `(?:\.|$)`. -/
def endDotDollar : RE := .alt (.cls (fun c => c = '.')) .dollar

/-- `(?:\s|\.|$)`. -/
def endSpDotDollar : RE := .alt (.cls pyIsSpace) endDotDollar

/-- One verification trigger pattern, e.g. `Make sure (?:that )?(.+?)(?:\.|$)`
(`parser.py` lines 42-48).  The dot in `(.+?)` does not match a newline. -/
def verifPattern (trigger : String) : RE :=
  seqList [litCI (trigger ++ " "), .opt (litCI "that "),
           .grp 1 (.plusL (fun c => ¬ c = '\n')), endDotDollar]

/-- `VERIFICATION_PATTERNS`, in source order. -/
def verificationPatterns : List RE :=
  [verifPattern "make sure", verifPattern "verify", verifPattern "check",
   verifPattern "confirm", verifPattern "ensure"]

/-- `ACTION_PATTERNS[CLICK]` (`parser.py` lines 52-55). -/
def clickPatterns : List RE :=
  [seqList [litCI "click ", .opt (litCI "on "), .opt (litCI "the "), optQuote,
            .grp 1 (.plusL notQuote), optQuote, endSpDotDollar],
   seqList [litCI "click on ", optQuote, .grp 1 (.plusL notQuote), optQuote,
            endSpDotDollar]]

/-- `ACTION_PATTERNS[NAVIGATE]`. -/
def navigatePatterns : List RE :=
  [seqList [litCI "go to ", .opt (litCI "the "), optQuote,
            .grp 1 (.plusL notQuote), optQuote, endDotDollar],
   seqList [litCI "navigate to ", .opt (litCI "the "), optQuote,
            .grp 1 (.plusL notQuote), optQuote, endDotDollar]]

/-- A two-capture pattern `<verb> ["\'](v)["\'] (?:<preps>) (?:the )?["\']?(t)["\']?(?:\.|$)`. -/
def valueTargetPattern (verb : String) (preps : List String) : RE :=
  seqList [litCI verb, .cls isQuote, .grp 1 (.plusL notQuote), .cls isQuote,
           litCI " ", altList (preps.map litCI), litCI " ", .opt (litCI "the "),
           optQuote, .grp 2 (.plusL notQuote), optQuote, endDotDollar]

/-- `ACTION_PATTERNS[TYPE]` (`parser.py` lines 60-64). -/
def typePatterns : List RE :=
  [valueTargetPattern "type " ["in", "into", "to"],
   valueTargetPattern "enter " ["in", "into", "to"],
   seqList [altList [litCI "enter", litCI "type"], litCI " ", .cls isQuote,
            .grp 1 (.plusL notQuote), .cls isQuote, endDotDollar]]

/-- `ACTION_PATTERNS[SELECT]` (`parser.py` lines 65-69). -/
def selectPatterns : List RE :=
  [valueTargetPattern "select " ["from", "in"],
   valueTargetPattern "choose " ["from", "in"],
   seqList [altList [litCI "select", litCI "choose"], litCI " ", .cls isQuote,
            .grp 1 (.plusL notQuote), .cls isQuote, endDotDollar]]

/-- `ACTION_PATTERNS[CHECK]` (`parser.py` lines 70-73). -/
def checkPatterns : List RE :=
  [seqList [litCI "check ", .opt (litCI "the "), optQuote,
            .grp 1 (.plusL notQuote), optQuote,
            .opt (.seq (litCI " ") (altList [litCI "checkbox", litCI "option"])),
            endDotDollar],
   seqList [litCI "select ", .opt (litCI "the "), optQuote,
            .grp 1 (.plusL notQuote), optQuote, litCI " ",
            altList [litCI "checkbox", litCI "option"], endDotDollar]]

/-- `ACTION_PATTERNS[UNCHECK]`. -/
def uncheckPatterns : List RE :=
  [seqList [litCI "uncheck ", .opt (litCI "the "), optQuote,
            .grp 1 (.plusL notQuote), optQuote, endDotDollar]]

/-- `ACTION_PATTERNS[FILL]` (`parser.py` lines 77-79).  Group 1 is the field,
group 2 the value; `_extract_actions` nevertheless reads group 1 as the value
and group 2 as the target, which is modelled as-is. -/
def fillPatterns : List RE :=
  [seqList [litCI "fill ", altList [litCI "out", litCI "in"], litCI " ",
            .opt (litCI "the "), optQuote, .grp 1 (.plusL notQuote), optQuote,
            litCI " ", altList [litCI "with", litCI "as"], litCI " ",
            .cls isQuote, .grp 2 (.plusL notQuote), .cls isQuote, endDotDollar]]

/-- `ACTION_PATTERNS` in dict insertion order (`parser.py` lines 51-80). -/
def actionPatterns : List (ActionType × List RE) :=
  [(.click, clickPatterns), (.navigate, navigatePatterns), (.type, typePatterns),
   (.select, selectPatterns), (.check, checkPatterns), (.uncheck, uncheckPatterns),
   (.fill, fillPatterns)]

/-- `EXPECTED_PAGE_PATTERN` (`parser.py` lines 83-86). -/
def expectedPagePattern : RE :=
  seqList [altList [litCI "make sure", litCI "verify", litCI "check", litCI "confirm"],
           litCI " ", .opt (litCI "that "),
           altList [litCI "the browser goes to", litCI "you are on", litCI "you see"],
           litCI " ", altList [litCI "a page called", litCI "page"], litCI " ",
           .cls isQuote, .grp 1 (.plusL notQuote), .cls isQuote]

/-- `EXPECTED_PAGE_PATTERN_ALT` (`parser.py` lines 88-91). -/
def expectedPagePatternAlt : RE :=
  seqList [altList [litCI "browser", litCI "page"], litCI " ",
           altList [litCI "goes to", litCI "navigates to", litCI "shows"],
           litCI " ", altList [litCI "a page called", litCI "page"], litCI " ",
           .cls isQuote, .grp 1 (.plusL notQuote), .cls isQuote]

/-- The third batch of expected-page patterns (`parser.py` lines 597-601). -/
def expectedPageAltPatterns : List RE :=
  [seqList [litCI "make sure ", .opt (litCI "that "),
            altList [litCI "the browser goes to", litCI "you are on"], litCI " ",
            altList [litCI "a page called", litCI "page"], litCI " ",
            .cls isQuote, .grp 1 (.plusL notQuote), .cls isQuote],
   seqList [litCI "verify ", .opt (litCI "that "),
            altList [litCI "you are on", litCI "you see"], litCI " ",
            .opt (litCI "the "), .cls isQuote, .grp 1 (.plusL notQuote),
            .cls isQuote, litCI " page"],
   seqList [altList [litCI "make sure", litCI "verify"], litCI " ",
            .opt (litCI "that "),
            altList [litCI "the browser goes to", litCI "you are on"], litCI " ",
            altList [litCI "a page called", litCI "page"], litCI " ",
            .grp 1 (.plusL (fun c => ¬ c = '.')), endDotDollar]]

/-- `EXPECTED_ELEMENT_PATTERN` (`parser.py` lines 93-96). -/
def expectedElementPattern : RE :=
  seqList [altList [litCI "make sure", litCI "verify", litCI "check", litCI "confirm"],
           litCI " ", .opt (litCI "that "),
           altList [litCI "you see", litCI "there is", litCI "the page contains",
                    litCI "the page has"],
           litCI " ", .opt (litCI "a "), optQuote, .grp 1 (.plusL notQuote),
           optQuote, endDotDollar]

/-- Bullet markers `[-*•]`. -/
def isBullet (c : Char) : Bool := c = '-' ∨ c = '*' ∨ c = '•'

/-- `GLOBAL_SECTION_PATTERN` (`parser.py` lines 36-39), tried at line starts. -/
def globalSectionPattern : RE :=
  seqList [litCI "for all pages:", starGC pyIsSpace, .cls (fun c => c = '\n'),
           .grp 1 (.seq bulletItem (.starG bulletItem))]
where
  bulletItem : RE :=
    seqList [.cls isBullet, starGC pyIsSpace, plusGC (fun c => ¬ c = '\n'),
             .opt (.cls (fun c => c = '\n'))]

/-- The capitalized-words field group `([A-Z][a-z]+(?:\s+[A-Z][a-z]+)*)` from
`_infer_field_name`; under `re.IGNORECASE` the classes match both cases. -/
def fieldNameGroup : RE :=
  .grp 1 (seqList [.cls isLetterAZ, plusGC isLetterAZ,
                   .starG (seqList [plusGC pyIsSpace, .cls isLetterAZ,
                                    plusGC isLetterAZ])])

/-- First `_infer_field_name` pattern (`parser.py` line 573). -/
def inferFieldPattern1 : RE :=
  seqList [fieldNameGroup, litCI ":", starGC pyIsSpace,
           altList [litCI "enter", litCI "type", litCI "select", litCI "choose"]]

/-- Second `_infer_field_name` pattern (`parser.py` line 578). -/
def inferFieldPattern2 : RE :=
  seqList [litCI "-", starGC pyIsSpace, fieldNameGroup, litCI ":",
           starGC pyIsSpace,
           altList [litCI "enter", litCI "type", litCI "select", litCI "choose"]]

/-! ## `RequirementParser` (`src/parser/parser.py`)

`parse_file` is modelled from the point where the document text has been
read: file-system access, encodings and the suite-name/`source_file` values
derived from the file path are opaque inputs, so the model takes the suite
name as a parameter and leaves `source_file` at `none`.  Log-only warnings
(gaps in numbering, short descriptions, ...) have no effect on the result and
are not represented.  Error messages keep the leading text of the Python
messages but drop interpolated diagnostic details. -/

/-- `https?://[^\s]+` at the start of `s` (case sensitive): on success the
URL and the remainder. -/
def urlAt (s : List Char) : Option (List Char × List Char) :=
  if "http".data.isPrefixOf s then
    let after4 := s.drop 4
    let scheme : Option (List Char × List Char) :=
      if "s://".data.isPrefixOf after4 then some ("https://".data, after4.drop 4)
      else if "://".data.isPrefixOf after4 then some ("http://".data, after4.drop 3)
      else none
    match scheme with
    | none => none
    | some (sch, rest2) =>
      let run := rest2.takeWhile (fun c => ¬ pyIsSpace c)
      if run.isEmpty then none
      else some (sch ++ run, rest2.drop run.length)
  else none

/-- `re.findall(r'https?://[^\s]+', s)`: leftmost, non-overlapping.  The fuel
starts at `s.length + 1`; every step advances at least one character. -/
def findUrlsAux (fuel : Nat) (s : List Char) : List (List Char) :=
  match fuel, s with
  | 0, _ => []
  | _, [] => []
  | fuel + 1, c :: rest =>
    match urlAt (c :: rest) with
    | some (url, after) => url :: findUrlsAux fuel after
    | none => findUrlsAux fuel rest

/-- The `__URL_i__` placeholder of `_split_into_sentences`. -/
def placeholderOf (i : Nat) : List Char := ("__URL_" ++ toString i ++ "__").data

/-- URL protection of `_split_into_sentences`: each found URL is replaced
(everywhere) by its placeholder; the replacement pairs are returned in
insertion order for the restore pass. -/
def protectUrls (text : List Char) : List Char × List (List Char × List Char) :=
  (findUrlsAux (text.length + 1) text).enum.foldl
    (fun acc p =>
      let ph := placeholderOf p.1
      (pyReplaceL p.2 ph acc.1, acc.2 ++ [(ph, p.2)]))
    (text, [])

/-- `[.!?]`. -/
def isEndPunct (c : Char) : Bool := c = '.' ∨ c = '!' ∨ c = '?'

/-- The lookbehind conditions of the sentence-split delimiter
`(?<!\w\.\w.)(?<![A-Z][a-z]\.)(?<=[.!?])` at position `i`. -/
def lookbehindOK (s : List Char) (i : Nat) : Bool :=
  let at_ := fun j => s.getD j (Char.ofNat 0)
  (1 ≤ i ∧ isEndPunct (at_ (i - 1)))
  ∧ ¬ (4 ≤ i ∧ pyIsWord (at_ (i - 4)) ∧ at_ (i - 3) = '.' ∧ pyIsWord (at_ (i - 2))
        ∧ ¬ at_ (i - 1) = '\n')
  ∧ ¬ (3 ≤ i ∧ isUpperAZ (at_ (i - 3)) ∧ isLowerAZ (at_ (i - 2)) ∧ at_ (i - 1) = '.')

/-- Length of the run of characters satisfying `p` starting at position `i`. -/
def runLen (p : Char → Bool) (s : List Char) (i : Nat) : Nat :=
  ((s.drop i).takeWhile p).length

/-- Length of the sentence-split delimiter matching at position `i` (0 when
none matches).  The delimiter regex is an ordered alternation: guarded `\s+`,
guarded `\n+` (subsumed by the first alternative), then unguarded `\n+`. -/
def delimLenAt (s : List Char) (i : Nat) : Nat :=
  if i < s.length ∧ lookbehindOK s i ∧ pyIsSpace (s.getD i (Char.ofNat 0)) then
    runLen pyIsSpace s i
  else if i < s.length ∧ s.getD i (Char.ofNat 0) = '\n' then
    runLen (fun c => c = '\n') s i
  else 0

/-- `re.split` scan: pieces between delimiter matches.  `fuel` starts at
`s.length + 1` and each step advances the position. -/
def splitScan (s : List Char) (i segStart fuel : Nat) : List (List Char) :=
  match fuel with
  | 0 => [(s.drop segStart).take (s.length - segStart)]
  | fuel + 1 =>
    if s.length ≤ i then [(s.drop segStart).take (s.length - segStart)]
    else
      let d := delimLenAt s i
      if d = 0 then splitScan s (i + 1) segStart fuel
      else ((s.drop segStart).take (i - segStart)) :: splitScan s (i + d) (i + d) fuel

/-- `_split_into_sentences` (`parser.py` lines 633-677). -/
def splitIntoSentences (text : String) : List String :=
  let prot := protectUrls text.data
  let pieces := splitScan prot.1 0 0 (prot.1.length + 1)
  let restored := prot.2.foldl (fun ss p => ss.map (pyReplaceL p.1 p.2)) pieces
  (restored.map pyStripL).filterMap
    (fun t => if t ≠ [] ∧ 3 < t.length then some (⟨t⟩ : String) else none)

/-- The severity keyword rule of `_extract_verifications`
(`parser.py` lines 469-475), applied to the full sentence. -/
def severityFromSentence (s : String) : Severity :=
  let lower := pyLower s
  if ["critical", "must", "required", "has to"].any (fun w => pyContains lower w) then
    .critical
  else if ["should", "preferably", "nice to have"].any (fun w => pyContains lower w) then
    .minor
  else .major

/-- The inner pattern loop of `_extract_verifications`: first pattern whose
search hit passes the length and duplicate filters appends a `Verification`;
a filtered-out hit falls through to the next pattern. -/
def verifTryPatterns (seen : List String) (s : String) :
    List RE → Except String (List String × Option Verification)
  | [] => .ok (seen, none)
  | p :: ps =>
    match reSearch p s.data with
    | none => verifTryPatterns seen s ps
    | some (caps, _) =>
      if pyStrip (capStr caps 1) = "" ∨ (pyStrip (capStr caps 1)).length < 3 then
        verifTryPatterns seen s ps
      else if pyLower (pyStrip (capStr caps 1)) ∈ seen then
        verifTryPatterns seen s ps
      else
        match mkVerification (pyStrip (capStr caps 1)) (severityFromSentence s)
            (some s) with
        | .error e => .error e
        | .ok v => .ok (pyLower (pyStrip (capStr caps 1)) :: seen, some v)

/-- The sentence loop of `_extract_verifications`. -/
def verifLoop (seen : List String) : List String → Except String (List Verification)
  | [] => .ok []
  | s₀ :: rest =>
    if pyStrip s₀ = "" then verifLoop seen rest
    else
      match verifTryPatterns seen (pyStrip s₀) verificationPatterns with
      | .error e => .error e
      | .ok (seen1, none) => verifLoop seen1 rest
      | .ok (seen1, some v) =>
        match verifLoop seen1 rest with
        | .error e => .error e
        | .ok vs => .ok (v :: vs)

/-- `_extract_verifications` (`parser.py` lines 432-485). -/
def extractVerifications (text : String) : Except String (List Verification) :=
  verifLoop [] (splitIntoSentences text)

/-- `_infer_field_name` (`parser.py` lines 569-582); the `value` argument is
unused by the Python code. -/
def inferFieldName (sentence : String) : Option String :=
  match reSearch inferFieldPattern1 sentence.data with
  | some (caps, _) => some (pyStrip (capStr caps 1))
  | none =>
    match reSearch inferFieldPattern2 sentence.data with
    | some (caps, _) => some (pyStrip (capStr caps 1))
    | none => none

/-- Deduplication key of `_extract_actions`:
`(action_type, target.lower(), value.lower() if value else None)`. -/
abbrev ActionKey := ActionType × String × Option String

/-- `value.lower() if value else None` (an empty string is falsy). -/
def actionKeyValue : Option String → Option String
  | none => none
  | some v => if v = "" then none else some (pyLower v)

/-- `ACTION_PATTERNS` with each pattern's static group count
(`len(match.groups())`). -/
def actionPatternTable : List (ActionType × List (RE × Nat)) :=
  [(.click, clickPatterns.map (fun r => (r, 1))),
   (.navigate, navigatePatterns.map (fun r => (r, 1))),
   (.type, typePatterns.zip [2, 2, 1]),
   (.select, selectPatterns.zip [2, 2, 1]),
   (.check, checkPatterns.map (fun r => (r, 1))),
   (.uncheck, uncheckPatterns.map (fun r => (r, 1))),
   (.fill, fillPatterns.zip [2])]

/-- The inner pattern loop of `_extract_actions` for one action type: a
filtered-out hit (missing value/target, failed field inference, duplicate
key) falls through to the next pattern of the same type; the first pattern
that yields an action wins. -/
def actTryPatterns (seen : List ActionKey) (s : String) (ty : ActionType) :
    List (RE × Nat) → Except String (List ActionKey × Option Action)
  | [] => .ok (seen, none)
  | (p, arity) :: ps =>
    match reSearch p s.data with
    | none => actTryPatterns seen s ty ps
    | some (caps, _) =>
      let tv : Option (String × Option String) :=
        if ty = .type ∨ ty = .select ∨ ty = .fill then
          if 2 ≤ arity then
            some (pyStrip (capStr caps 2), some (pyStrip (capStr caps 1)))
          else if arity = 1 then
            match inferFieldName s with
            | none => none
            | some t => some (t, some (pyStrip (capStr caps 1)))
          else none
        else some (pyStrip (capStr caps 1), none)
      match tv with
      | none => actTryPatterns seen s ty ps
      | some (target, value) =>
        if (ty = .type ∨ ty = .select ∨ ty = .fill)
            ∧ (value.getD "" = "" ∨ (value.getD "").length < 1) then
          actTryPatterns seen s ty ps
        else if target = "" ∨ target.length < 1 then
          actTryPatterns seen s ty ps
        else
          let key : ActionKey := (ty, pyLower target, actionKeyValue value)
          if key ∈ seen then actTryPatterns seen s ty ps
          else
            match mkActionDefaultWait ty target value (some s) with
            | .error e => .error e
            | .ok a => .ok (key :: seen, some a)

/-- The action-type loop of `_extract_actions` for one sentence. -/
def actTypesLoop (seen : List ActionKey) (s : String) :
    List (ActionType × List (RE × Nat)) → Except String (List ActionKey × List Action)
  | [] => .ok (seen, [])
  | (ty, pats) :: rest =>
    match actTryPatterns seen s ty pats with
    | .error e => .error e
    | .ok (seen1, none) => actTypesLoop seen1 s rest
    | .ok (seen1, some a) =>
      match actTypesLoop seen1 s rest with
      | .error e => .error e
      | .ok (seen2, acts) => .ok (seen2, a :: acts)

/-- The sentence loop of `_extract_actions`. -/
def actSentLoop (seen : List ActionKey) : List String → Except String (List Action)
  | [] => .ok []
  | s₀ :: rest =>
    let s := pyStrip s₀
    if s = "" then actSentLoop seen rest
    else
      match actTypesLoop seen s actionPatternTable with
      | .error e => .error e
      | .ok (seen1, acts) =>
        match actSentLoop seen1 rest with
        | .error e => .error e
        | .ok more => .ok (acts ++ more)

/-- `_extract_actions` (`parser.py` lines 487-567). -/
def extractActions (text : String) : Except String (List Action) :=
  actSentLoop [] (splitIntoSentences text)

/-- `re.sub(r'^(First|Then|Next|After that|Finally),?\s*', '', line, re.I)`:
the `^` anchor allows at most one replacement. -/
def stripDiscourseMarker (line : String) : String :=
  let tryWord : String → Option (List Char) := fun w =>
    if ciIsPrefOf (w.data.map Char.toLower) line.data then
      let r := line.data.drop w.length
      let r2 := match r with
        | ',' :: t => t
        | _ => r
      some (r2.dropWhile pyIsSpace)
    else none
  match tryWord "First" with
  | some r => ⟨r⟩
  | none =>
    match tryWord "Then" with
    | some r => ⟨r⟩
    | none =>
      match tryWord "Next" with
      | some r => ⟨r⟩
      | none =>
        match tryWord "After that" with
        | some r => ⟨r⟩
        | none =>
          match tryWord "Finally" with
          | some r => ⟨r⟩
          | none => line

/-- `_extract_description` (`parser.py` lines 418-430). -/
def extractDescription (text : String) : String :=
  descLoop (pySplitLines text)
where
  descLoop : List String → String
    | [] => "Step description"
    | l₀ :: rest =>
      let line := pyStrip l₀
      if line ≠ "" ∧ ¬ pyStartsWith line "-" ∧ ¬ pyStartsWith line "*" then
        let line1 := stripDiscourseMarker line
        let line2 :=
          if pyStartsWith line1 "Description:" then
            pyStrip (pyReplace line1 "Description:" "")
          else line1
        ⟨line2.data.take 200⟩
      else descLoop rest

/-- `re.sub(r'^[-*•]\s*', '', line)`. -/
def stripBulletMarker (s : String) : String :=
  match s.data with
  | c :: rest => if isBullet c then ⟨rest.dropWhile pyIsSpace⟩ else s
  | [] => s

/-- `_extract_expected_page` (`parser.py` lines 584-608). -/
def extractExpectedPage (text : String) : Option String :=
  match reSearch expectedPagePattern text.data with
  | some (caps, _) => some (pyStrip (capStr caps 1))
  | none =>
    match reSearch expectedPagePatternAlt text.data with
    | some (caps, _) => some (pyStrip (capStr caps 1))
    | none => altLoop expectedPageAltPatterns
where
  altLoop : List RE → Option String
    | [] => none
    | p :: ps =>
      match reSearch p text.data with
      | some (caps, _) => some (pyStrip (capStr caps 1))
      | none => altLoop ps

/-- `_extract_expected_elements` (`parser.py` lines 610-631). -/
def extractExpectedElements (text : String) : List String :=
  let fromPattern := (reFindIter expectedElementPattern text.data).filterMap
    (fun caps =>
      let el := pyStrip (capStr caps 1)
      if el ≠ "" then some el else none)
  let fromBullets := (pySplitLines text).filterMap
    (fun l₀ =>
      let line := pyStrip l₀
      if pyStartsWith line "-" ∨ pyStartsWith line "*" then
        let el := stripBulletMarker line
        if el ≠ "" ∧ 3 < el.length then some el else none
      else none)
  fromPattern ++ fromBullets

/-- The per-line loop of `_extract_global_requirements`. -/
def globLoop : List String → Except String (List Verification)
  | [] => .ok []
  | l₀ :: rest =>
    let line := pyStrip l₀
    if line = "" then globLoop rest
    else
      let line2 := stripBulletMarker line
      if line2 = "" then globLoop rest
      else
        match extractVerifications line2 with
        | .error e => .error e
        | .ok vs =>
          if ¬ vs.isEmpty then
            match globLoop rest with
            | .error e => .error e
            | .ok more => .ok (vs ++ more)
          else
            let lower := pyLower line2
            if ["make sure", "verify", "check", "confirm", "ensure", "must",
                "need", "should", "require", "has to"].any
                (fun w => pyContains lower w) then
              let sev :=
                if ["critical", "must", "required", "has to"].any
                    (fun w => pyContains lower w) then Severity.critical
                else if ["should", "preferably"].any
                    (fun w => pyContains lower w) then Severity.minor
                else Severity.major
              match mkVerification line2 sev (some line2) with
              | .error e => .error e
              | .ok v =>
                match globLoop rest with
                | .error e => .error e
                | .ok more => .ok (v :: more)
            else globLoop rest

/-- `_extract_global_requirements` (`parser.py` lines 285-341). -/
def extractGlobalRequirements (content : String) : Except String (List Verification) :=
  match reSearchLines globalSectionPattern content.data with
  | none => .ok []
  | some (caps, _) => globLoop (pySplitLines (capStr caps 1))

/-- Numeric value of a digit run (`int(marker.group(1))`). -/
def digitsToInt (ds : List Char) : Int :=
  Int.ofNat (ds.foldl (fun n c => n * 10 + (c.toNat - 48)) 0)

/-- Scanner for `re.finditer(r'^(\d+)\.\s*', content, re.MULTILINE)`: yields
`(value, marker start, marker end)` for each step marker; `^` holds at
position 0 or after a newline, and `\s*` greedily consumes whitespace
(including newlines) after the dot, so the resume position of `finditer`
is the marker's end.  `fuel` starts at the content length + 1; each step
advances by at least one character. -/
def stepScan (fuel : Nat) (s : List Char) (pos : Nat) (atStart : Bool) :
    List (Int × Nat × Nat) :=
  match fuel, s with
  | 0, _ => []
  | _, [] => []
  | fuel + 1, c :: rest =>
    if atStart ∧ c.isDigit then
      let ds := (c :: rest).takeWhile Char.isDigit
      match (c :: rest).drop ds.length with
      | '.' :: rest2 =>
        let ws := rest2.takeWhile pyIsSpace
        let consumed := ds.length + 1 + ws.length
        let nextAtStart :=
          match ws.getLast? with
          | some ch => ch = '\n'
          | none => false
        (digitsToInt ds, pos, pos + consumed) ::
          stepScan fuel (rest2.drop ws.length) (pos + consumed) nextAtStart
      | _ => stepScan fuel rest (pos + 1) (c = '\n')
    else stepScan fuel rest (pos + 1) (c = '\n')

/-- Step text spans (`_extract_steps` lines 358-370): each step's text runs
from its marker's end to the next marker's start (or the end of the content)
and is stripped. -/
def stepSpans (cs : List Char) : List (Int × Nat × Nat) → List (Int × String)
  | [] => []
  | (num, _, markEnd) :: rest =>
    let nextStart :=
      match rest with
      | (_, start2, _) :: _ => start2
      | [] => cs.length
    (num, ⟨pyStripL ((cs.drop markEnd).take (nextStart - markEnd))⟩)
      :: stepSpans cs rest

/-- Insert a step after every entry with a key at most its own — the stable
insertion used to model Python's stable `list.sort(key=...)`. -/
def insAsc (x : Int × String) : List (Int × String) → List (Int × String)
  | [] => [x]
  | y :: ys => if y.1 ≤ x.1 then y :: insAsc x ys else x :: y :: ys

/-- Stable ascending sort by step number (`steps.sort(key=lambda x: x[0])`). -/
def stableSortSteps (l : List (Int × String)) : List (Int × String) :=
  l.foldl (fun acc x => insAsc x acc) []

/-- `_extract_steps` (`parser.py` lines 343-376). -/
def extractSteps (content : String) : List (Int × String) :=
  let cs := content.data
  stableSortSteps (stepSpans cs (stepScan (cs.length + 1) cs 0 true))

/-- `_parse_step` (`parser.py` lines 378-416). -/
def parseStep (stepNumber : Int) (stepText : String)
    (globalReqs : List Verification) : Except String TestStep :=
  match extractVerifications stepText with
  | .error e => .error e
  | .ok verifs =>
    match extractActions stepText with
    | .error e => .error e
    | .ok acts =>
      mkTestStep stepNumber (extractDescription stepText)
        (if ¬ globalReqs.isEmpty then globalReqs ++ verifs else verifs)
        acts (extractExpectedPage stepText) (extractExpectedElements stepText)

/-- The per-step loop of `parse_file` (lines 157-176): any error while
parsing a step aborts the whole parse with the step number as context. -/
def stepsLoop (globalReqs : List Verification) :
    List (Int × String) → Except String (List TestStep)
  | [] => .ok []
  | (num, text) :: rest =>
    match parseStep num text globalReqs with
    | .error e => .error ("Failed to parse step " ++ toString num ++ ": " ++ e)
    | .ok st =>
      match stepsLoop globalReqs rest with
      | .error e => .error e
      | .ok more => .ok (st :: more)

/-- `_validate_suite` (`parser.py` lines 194-247): only the emptiness and
duplicate checks raise; everything else merely logs warnings. -/
def validateSuite (suite : TestSuite) : Except String Unit :=
  if suite.steps.isEmpty then .error "Test suite has no steps"
  else
    let nums := suite.steps.map TestStep.step_number
    if nums.dedup.length ≠ nums.length then
      .error "Duplicate step numbers found"
    else .ok ()

/-- `parse_file` from the point where the document text is available
(`parser.py` lines 140-192).  The suite name is an opaque input (derived from
the file path in Python); `source_file` is left at `none`. -/
def parseRequirements (suiteName : String) (content : String) :
    Except String TestSuite :=
  if pyStrip content = "" then .error "Requirement file is empty"
  else
    match extractGlobalRequirements content with
    | .error e => .error e
    | .ok globalReqs =>
      if (extractSteps content).isEmpty then .error "No test steps found"
      else
        match stepsLoop globalReqs (extractSteps content) with
        | .error e => .error e
        | .ok testSteps =>
          match mkTestSuite suiteName testSteps globalReqs none none with
          | .error e => .error e
          | .ok suite =>
            match validateSuite suite with
            | .error e => .error e
            | .ok _ => .ok suite

/-! ## `TestExecutor` (`src/executor/executor.py`)

The browser page is the opaque capability `page : String → Except String Unit`
(click a selector: success, or the error text of the raised exception).  The
per-action resolver is abstracted as `runAction`, page-state capture as
`capture` and the AI verification capability as `verify`; `execute_step` is a
deterministic function of these.  `asyncio.sleep` and wall-clock durations
have no observable effect in the model. -/

/-- `ActionExecutionError` (`executor.py` lines 45-62). -/
structure ActionError where
  message : String
  attempted_selectors : List String
  original_error : Option String
deriving DecidableEq, Repr

/-- `ActionExecutionError.__str__` (`executor.py` lines 54-62). -/
def aeToString (e : ActionError) : String :=
  e.message
  ++ (if ¬ e.attempted_selectors.isEmpty then
        "\nAttempted selectors: "
        ++ String.intercalate ", " (e.attempted_selectors.take 5)
        ++ (if 5 < e.attempted_selectors.length then
              " (and " ++ toString (e.attempted_selectors.length - 5) ++ " more)"
            else "")
      else "")
  ++ (match e.original_error with
      | some o => "\nOriginal error: " ++ o
      | none => "")

/-- The 8 click strategies of `_click` (`executor.py` lines 415-432), paired
with whether the strategy's lambda actually attempts a click: the last two
return `None` (no attempt, no error) unless the target starts with `#` / `.`,
yet their selectors are still recorded as attempted. -/
def clickStrategies (t : String) : List (String × Bool) :=
  [("text=\"" ++ t ++ "\"", true),
   ("button:has-text(\"" ++ t ++ "\")", true),
   ("a:has-text(\"" ++ t ++ "\")", true),
   ("[aria-label=\"" ++ t ++ "\"]", true),
   ("[title=\"" ++ t ++ "\"]", true),
   ("text=/" ++ t ++ "/i", true),
   ("#" ++ t, pyStartsWith t "#"),
   ("." ++ t, pyStartsWith t ".")]

/-- The strategy loop of `_click` (`executor.py` lines 434-456): selectors are
recorded (without duplicates) before the attempt; the first successful click
returns; a failed attempt records the error and falls through; a skipped
strategy (lambda returned `None`) falls through without touching the error. -/
def clickLoop (page : String → Except String Unit) (target : String) :
    List (String × Bool) → List String → Option String → Except ActionError Unit
  | [], attempted, lastErr =>
    .error { message := "Could not click element: '" ++ target ++ "'. Tried "
                        ++ toString attempted.length ++ " selectors.",
             attempted_selectors := attempted, original_error := lastErr }
  | (sel, act) :: rest, attempted, lastErr =>
    let attempted1 := if sel ∈ attempted then attempted else attempted ++ [sel]
    if act then
      match page sel with
      | .ok _ => .ok ()
      | .error e => clickLoop page target rest attempted1 (some e)
    else clickLoop page target rest attempted1 lastErr

/-- `_click` (`executor.py` lines 413-456). -/
def clickAction (page : String → Except String Unit) (target : String) :
    Except ActionError Unit :=
  clickLoop page target (clickStrategies target) [] none

/-- `_calculate_step_status` (`executor.py` lines 690-718). -/
def calculateStepStatus (rs : List VerificationResult) : StepStatus :=
  if rs.isEmpty then .pending
  else if rs.any (fun vr => ¬ vr.passed) then .failed
  else if rs.any (fun vr =>
      decide (vr.confidence < 70) || vr.issues.any (fun i => decide (i.severity = .minor))) then
    .warning
  else .passed

/-- `_extract_issues` (`executor.py` lines 720-735). -/
def extractIssues : List VerificationResult → List Issue
  | [] => []
  | vr :: rest => (if vr.passed then [] else vr.issues) ++ extractIssues rest

/-- The action loop of `execute_step` (lines 190-204): the first failing
action aborts the remaining ones with its `ActionExecutionError`. -/
def runActions (runAction : Action → Except ActionError Unit) :
    List Action → Except ActionError Unit
  | [] => .ok ()
  | a :: rest =>
    match runAction a with
    | .error e => .error e
    | .ok _ => runActions runAction rest

/-- The verification loop of `execute_step` (lines 210-224): a capability
failure for one requirement becomes a synthetic failed result built by the
`VerificationResult` constructor; a constructor error there would escape to
the step-level handler, hence the `Except`. -/
def verifyLoop (verify : Verification → Except String VerificationResult) :
    List Verification → Except String (List VerificationResult)
  | [] => .ok []
  | w :: rest =>
    match verify w with
    | .ok r =>
      match verifyLoop verify rest with
      | .error e => .error e
      | .ok more => .ok (r :: more)
    | .error m =>
      match mkVerificationResult w.text false 0 []
          (some ("Verification error: " ++ m)) none with
      | .error e2 => .error e2
      | .ok fr =>
        match verifyLoop verify rest with
        | .error e => .error e
        | .ok more => .ok (fr :: more)

/-- The `except` branch of `execute_step` (lines 246-254): a `FAILED` result
carrying only the error text, with no page snapshot and no verification
results.  (The `StepResult` constructor strips `description` and
`error_message`; for a step built by `mkTestStep` its checks cannot fail.) -/
def failedStepResult (step : TestStep) (msg : String) : StepResult :=
  { step_number := step.step_number, description := pyStrip step.description,
    status := .failed, verifications := [], screenshot := none,
    html_snapshot := none, issues := [], duration_ms := none,
    error_message := some (pyStrip msg) }

/-- `execute_step` (`executor.py` lines 174-254): run the actions, capture
the page state, evaluate every requirement, aggregate; any escaped error is
converted into a `FAILED` result.  Total — never an exception. -/
def executeStep (runAction : Action → Except ActionError Unit)
    (capture : Except String PageState)
    (verify : Verification → Except String VerificationResult)
    (step : TestStep) : StepResult :=
  match runActions runAction step.actions with
  | .error e => failedStepResult step (aeToString e)
  | .ok _ =>
    match capture with
    | .error msg => failedStepResult step msg
    | .ok st =>
      match verifyLoop verify step.verifications with
      | .error msg => failedStepResult step msg
      | .ok vrs =>
        match mkStepResult step.step_number step.description
            (calculateStepStatus vrs) vrs (some st.screenshot) (some st.html)
            (extractIssues vrs) none none with
        | .ok r => r
        | .error msg => failedStepResult step msg

/-! ## Specification-side definitions

These definitions are written from the words of the specification / claims,
to be compared with the definitions translated from the source. -/

/-- Did an `Except` computation succeed? -/
def exceptOk {ε α : Type} : Except ε α → Bool
  | .ok _ => true
  | .error _ => false

/-- C1's aggregation policy, as the claim words it: empty → PENDING; any
failed → FAILED; else low confidence or a MINOR issue → WARNING; else
PASSED. -/
def claimStepStatus (rs : List VerificationResult) : StepStatus :=
  if rs = [] then .pending
  else if ∃ r ∈ rs, r.passed = false then .failed
  else if (∃ r ∈ rs, r.confidence < 70)
      ∨ (∃ r ∈ rs, ∃ i ∈ r.issues, i.severity = .minor) then .warning
  else .passed

/-- C2's issue collection, as the claim words it: exactly the issues attached
to results with `passed = false`, in order. -/
def claimStepIssues (rs : List VerificationResult) : List Issue :=
  (rs.filter (fun r => decide (r.passed = false))).flatMap (fun r => r.issues)

/-- C6's severity rule, as the claim words it (no other keyword than the six
listed ones affects the severity). -/
def claimSeverityRule (s : String) : Severity :=
  let lower := pyLower s
  if ["critical", "must", "required", "has to"].any (fun w => pyContains lower w) then
    .critical
  else if ["should", "preferably"].any (fun w => pyContains lower w) then
    .minor
  else .major

/-- The amended severity rule: the code additionally treats a sentence
containing `"nice to have"` as MINOR. -/
def severityRuleAmended (s : String) : Severity :=
  let lower := pyLower s
  if ["critical", "must", "required", "has to"].any (fun w => pyContains lower w) then
    .critical
  else if ["should", "preferably", "nice to have"].any (fun w => pyContains lower w) then
    .minor
  else .major

/-- The synthetic failed result that `execute_step` builds when the AI
capability fails for one requirement. -/
def syntheticVR (w : Verification) (m : String) : VerificationResult :=
  { requirement := pyStrip w.text, passed := false, confidence := 0, issues := [],
    ai_reasoning := some (pyStrip ("Verification error: " ++ m)),
    duration_ms := none }

/-- The per-requirement outcome of the verification loop: the capability's
result, or the synthetic failed result. -/
def verifyOutcome (verify : Verification → Except String VerificationResult)
    (w : Verification) : VerificationResult :=
  match verify w with
  | .ok r => r
  | .error m => syntheticVR w m

/-- The selector whose failure `_click` reports as the last underlying error
when every strategy fails: the id strategy for `#`-targets, the class
strategy for `.`-targets, and otherwise the loose-text-regex strategy (the
last two strategies are skipped for other targets). -/
def lastClickSelector (t : String) : String :=
  if pyStartsWith t "#" then "#" ++ t
  else if pyStartsWith t "." then "." ++ t
  else "text=/" ++ t ++ "/i"

/-! ## Helper lemmas -/

theorem dropWhile_head_false (p : Char → Bool) (l : List Char) (c : Char)
    (h : (l.dropWhile p).head? = some c) : p c = false := by
  induction l with
  | nil => simp [List.dropWhile] at h
  | cons a t ih =>
    by_cases hp : p a
    · rw [List.dropWhile_cons, if_pos hp] at h
      exact ih h
    · rw [List.dropWhile_cons, if_neg hp] at h
      simp at h
      rw [← h]
      exact Bool.of_not_eq_true hp

theorem getLast?_dropWhile (p : Char → Bool) (l : List Char)
    (h : l.dropWhile p ≠ []) : (l.dropWhile p).getLast? = l.getLast? := by
  induction l with
  | nil => simp [List.dropWhile] at h
  | cons a t ih =>
    by_cases hp : p a
    · rw [List.dropWhile_cons, if_pos hp] at h ⊢
      rw [ih h]
      have ht : t ≠ [] := by
        intro he
        rw [he] at h
        simp [List.dropWhile] at h
      cases t with
      | nil => exact absurd rfl ht
      | cons b t2 => rw [List.getLast?_cons_cons]
    · rw [List.dropWhile_cons, if_neg hp]

theorem dropWhile_of_head_false (p : Char → Bool) (l : List Char)
    (h : ∀ c, l.head? = some c → p c = false) : l.dropWhile p = l := by
  cases l with
  | nil => rfl
  | cons a t =>
    rw [List.dropWhile_cons, if_neg]
    intro hp
    have := h a rfl
    rw [this] at hp
    exact Bool.false_ne_true hp

/-- `str.strip` is idempotent. -/
theorem pyStripL_idem (l : List Char) : pyStripL (pyStripL l) = pyStripL l := by
  unfold pyStripL
  set A := l.dropWhile pyIsSpace with hA
  by_cases hR : A.reverse.dropWhile pyIsSpace = []
  · rw [hR]
    simp [List.dropWhile]
  · set R := A.reverse.dropWhile pyIsSpace with hRdef
    have hhead : ∀ c, R.reverse.head? = some c → pyIsSpace c = false := by
      intro c hc
      rw [List.head?_reverse] at hc
      have hlast : R.getLast? = A.reverse.getLast? := getLast?_dropWhile _ _ hR
      rw [hlast] at hc
      rw [List.getLast?_reverse] at hc
      exact dropWhile_head_false pyIsSpace l c (hA ▸ hc)
    rw [dropWhile_of_head_false _ _ hhead]
    have hhead2 : ∀ c, R.reverse.reverse.head? = some c → pyIsSpace c = false := by
      intro c hc
      rw [List.reverse_reverse] at hc
      exact dropWhile_head_false pyIsSpace A.reverse c (hRdef ▸ hc)
    rw [dropWhile_of_head_false _ _ hhead2, List.reverse_reverse]

theorem pyStrip_idem (s : String) : pyStrip (pyStrip s) = pyStrip s := by
  unfold pyStrip
  exact congrArg String.mk (pyStripL_idem s.data)

/-- Shape of a successful `mkTestSuite`: the steps are kept verbatim and their
numbers passed the duplicate and the ascending-order checks. -/
theorem mkTestSuite_ok (n : String) (st : List TestStep) (g : List Verification)
    (d sf : Option String) (s : TestSuite) (h : mkTestSuite n st g d sf = .ok s) :
    s.steps = st ∧ (st.map TestStep.step_number).Nodup
      ∧ (st.map TestStep.step_number).Sorted (· ≤ ·) := by
  unfold mkTestSuite at h
  split_ifs at h with h1 h2 h3 h4
  all_goals cases h
  refine ⟨rfl, ?_, ?_⟩
  · have hlen : (st.map TestStep.step_number).dedup.length
        = (st.map TestStep.step_number).length := by
      by_contra hc
      exact h3 hc
    have heq : (st.map TestStep.step_number).dedup
        = st.map TestStep.step_number :=
      (List.dedup_sublist _).eq_of_length hlen
    exact List.dedup_eq_self.mp heq
  · have hs : st.map TestStep.step_number
        = (st.map TestStep.step_number).insertionSort (· ≤ ·) := by
      by_contra hc
      exact h4 hc
    rw [hs]
    exact List.sorted_insertionSort _ _

/-! ## Concrete instances used by scenario theorems and witnesses -/

/-- Scenario D's CRITICAL issue. -/
def issueD : Issue :=
  { severity := .critical, description := "Login form does not appear",
    step_number := none, element := none, screenshot_path := none }

/-- Scenario D: first verification passes with confidence 95. -/
def vrPassD : VerificationResult :=
  { requirement := "first check", passed := true, confidence := 95,
    issues := [], ai_reasoning := none, duration_ms := none }

/-- Scenario D: second verification fails with confidence 40 and one
CRITICAL issue. -/
def vrFailD : VerificationResult :=
  { requirement := "second check", passed := false, confidence := 40,
    issues := [issueD], ai_reasoning := none, duration_ms := none }

/-- A validly constructed step numbered 1. -/
def stepOneT : TestStep :=
  { step_number := 1, description := "Step one.", verifications := [],
    actions := [], expected_page := none, expected_elements := [] }

/-- A validly constructed step numbered 3. -/
def stepThreeT : TestStep :=
  { step_number := 3, description := "Step three.", verifications := [],
    actions := [], expected_page := none, expected_elements := [] }

/-- Constructing a suite whose steps are numbered 1 and 3 (a gap, no
duplicate), through the validating constructors. -/
def gapSuiteConstruction : Except String TestSuite :=
  match mkTestStep 1 "Step one." [] [] none [],
        mkTestStep 3 "Step three." [] [] none [] with
  | .ok a, .ok b => mkTestSuite "Gap Suite" [a, b] [] none none
  | _, _ => .error "step construction failed"

/-- The suite value produced by `gapSuiteConstruction`. -/
def gapSuiteValue : TestSuite :=
  { name := "Gap Suite", steps := [stepOneT, stepThreeT],
    global_requirements := [], description := none, source_file := none }

/-! ## C1 -/

/-- C1: the step status aggregation is a deterministic function of the
verification-result list, and equals the claimed policy: empty → PENDING;
any `passed = false` → FAILED regardless of everything else; else any
confidence below 70 or any MINOR issue → WARNING; else PASSED. -/
theorem c1_step_status_aggregation (rs : List VerificationResult) :
    calculateStepStatus rs = claimStepStatus rs := by
  unfold calculateStepStatus claimStepStatus
  by_cases h1 : rs = []
  · simp [h1]
  · have hne : rs.isEmpty = false := by simpa [List.isEmpty_iff] using h1
    simp only [hne, Bool.false_eq_true, if_false]
    rw [if_neg h1]
    by_cases h2 : ∃ r ∈ rs, r.passed = false
    · have hb : rs.any (fun vr => ¬ vr.passed) = true := by
        rw [List.any_eq_true]
        obtain ⟨r, hr, hp⟩ := h2
        exact ⟨r, hr, by simp [hp]⟩
      rw [if_pos hb, if_pos h2]
    · have hb : ¬ (rs.any (fun vr => ¬ vr.passed) = true) := by
        rw [List.any_eq_true]
        rintro ⟨r, hr, hp⟩
        exact h2 ⟨r, hr, by simpa using hp⟩
      rw [if_neg hb, if_neg h2]
      by_cases h3 : (∃ r ∈ rs, r.confidence < 70)
          ∨ (∃ r ∈ rs, ∃ i ∈ r.issues, i.severity = .minor)
      · have hg : rs.any (fun vr => decide (vr.confidence < 70)
            || vr.issues.any (fun i => decide (i.severity = .minor))) = true := by
          rw [List.any_eq_true]
          rcases h3 with ⟨r, hr, hc⟩ | ⟨r, hr, i, hi, hs⟩
          · exact ⟨r, hr, by simp [hc]⟩
          · refine ⟨r, hr, ?_⟩
            rw [Bool.or_eq_true]
            right
            rw [List.any_eq_true]
            exact ⟨i, hi, by simp [hs]⟩
        rw [if_pos hg, if_pos h3]
      · have hg : ¬ (rs.any (fun vr => decide (vr.confidence < 70)
            || vr.issues.any (fun i => decide (i.severity = .minor))) = true) := by
          rw [List.any_eq_true]
          rintro ⟨r, hr, hor⟩
          rw [Bool.or_eq_true] at hor
          rcases hor with hc | hi
          · exact h3 (Or.inl ⟨r, hr, by simpa using hc⟩)
          · rw [List.any_eq_true] at hi
            obtain ⟨i, hii, hs⟩ := hi
            exact h3 (Or.inr ⟨r, hr, i, hii, by simpa using hs⟩)
        rw [if_neg hg, if_neg h3]

/-! ## C2 -/

/-- C2: the step-level issue list is exactly the issues of the failed
verification results, in order; issues of passing results never appear.
Scenario D: pass(95) + fail(40, one CRITICAL issue) → status FAILED and
exactly the CRITICAL issue surfaces. -/
theorem c2_issues_from_failed_only :
    (∀ rs, extractIssues rs = claimStepIssues rs)
    ∧ calculateStepStatus [vrPassD, vrFailD] = .failed
    ∧ extractIssues [vrPassD, vrFailD] = [issueD] := by
  refine ⟨?_, by rfl, by rfl⟩
  intro rs
  induction rs with
  | nil => rfl
  | cons vr rest ih =>
    by_cases hp : vr.passed
    · simp [extractIssues, claimStepIssues, List.filter_cons, hp, ih]
    · have hp2 : vr.passed = false := by simpa using hp
      simp [extractIssues, claimStepIssues, List.filter_cons, hp2, ih]

/-! ## C3 -/

/-- C3 counterexample: a suite whose steps are numbered 1 and 3 — a gap, so
not a contiguous sequence starting at 1 — is accepted by the `TestSuite`
constructor, contradicting the claim that any gap is a hard construction
error. -/
theorem c3_counterexample : exceptOk gapSuiteConstruction = true := by rfl

/-- C3 (amended): `TestSuite` construction keeps the steps verbatim (no
renumbering) and rejects duplicated or out-of-order step numbers, so a
successful construction has duplicate-free ascending numbers; contiguity and
starting at 1 are not required — the gap suite numbered 1,3 is accepted. -/
theorem c3_numbering_invariant (n : String) (st : List TestStep)
    (g : List Verification) (d sf : Option String) (s : TestSuite)
    (h : mkTestSuite n st g d sf = .ok s) :
    ((s.steps.map TestStep.step_number).Nodup
      ∧ (s.steps.map TestStep.step_number).Sorted (· ≤ ·) ∧ s.steps = st)
    ∧ exceptOk gapSuiteConstruction = true := by
  obtain ⟨hsteps, hnodup, hsort⟩ := mkTestSuite_ok n st g d sf s h
  refine ⟨⟨?_, ?_, hsteps⟩, by rfl⟩
  · rw [hsteps]; exact hnodup
  · rw [hsteps]; exact hsort

/-- Witness for C3: instantiated at the concrete gap suite. -/
theorem c3_numbering_invariant_witness :
    ((gapSuiteValue.steps.map TestStep.step_number).Nodup
      ∧ (gapSuiteValue.steps.map TestStep.step_number).Sorted (· ≤ ·)
      ∧ gapSuiteValue.steps = [stepOneT, stepThreeT])
    ∧ exceptOk gapSuiteConstruction = true :=
  c3_numbering_invariant "Gap Suite" [stepOneT, stepThreeT] [] none none
    gapSuiteValue (by rfl)

/-! ## C10 -/

/-- C10: `Action` construction enforces `0 ≤ wait_after_ms ≤ 60000` — a value
above 60000 is a construction error — and an omitted `wait_after_ms`
defaults to 500. -/
theorem c10_wait_after_ms_bounds (ty : ActionType) (tgt : String)
    (v d : Option String) (w : Int) :
    (exceptOk (mkAction ty tgt v d w) = true → 0 ≤ w ∧ w ≤ 60000)
    ∧ (60000 < w → exceptOk (mkAction ty tgt v d w) = false)
    ∧ mkActionDefaultWait ty tgt v d = mkAction ty tgt v d 500 := by
  refine ⟨?_, ?_, rfl⟩
  · intro h
    unfold mkAction at h
    split at h
    · exact Bool.noConfusion h
    · split at h
      · exact Bool.noConfusion h
      · split at h
        · exact Bool.noConfusion h
        · split at h
          · exact Bool.noConfusion h
          · exact ⟨by omega, by omega⟩
  · intro hw
    unfold mkAction
    split
    · rfl
    · split
      · rfl
      · rw [if_neg (show ¬ w < 0 by omega)]
        try rw [if_pos hw]
        rfl

/-- Witness for C10: a click action with the default wait constructs, so its
wait is within bounds; a 60001 ms wait is rejected. -/
theorem c10_wait_after_ms_bounds_witness :
    ((0:Int) ≤ 500 ∧ (500:Int) ≤ 60000)
    ∧ exceptOk (mkAction .click "Login" none none 60001) = false :=
  ⟨(c10_wait_after_ms_bounds .click "Login" none none 500).1 (by rfl),
   (c10_wait_after_ms_bounds .click "Login" none none 60001).2.1 (by omega)⟩


/-! ## C9 -/

theorem listNeOfMismatch (A X C Y : List Char) (i : Nat) (h1 : i < A.length)
    (h2 : i < C.length) (h3 : A[i]? ≠ C[i]?) : A ++ X ≠ C ++ Y := by
  intro he
  apply h3
  calc A[i]? = (A ++ X)[i]? := (List.getElem?_append_left h1).symm
    _ = (C ++ Y)[i]? := by rw [he]
    _ = C[i]? := List.getElem?_append_left h2

/-- Two strings with a character mismatch inside their constant heads differ,
whatever follows. -/
theorem strNeOfMismatch (p q x y : String) (i : Nat) (h1 : i < p.data.length)
    (h2 : i < q.data.length) (h3 : p.data[i]? ≠ q.data[i]?) : p ++ x ≠ q ++ y := by
  intro he
  exact listNeOfMismatch p.data x.data q.data y.data i h1 h2 h3 (congrArg String.data he)

theorem strAppendAssoc (a b c : String) : a ++ b ++ c = a ++ (b ++ c) := by
  show String.mk ((a.data ++ b.data) ++ c.data)
      = String.mk (a.data ++ (b.data ++ c.data))
  exact congrArg String.mk (List.append_assoc _ _ _)

theorem singleton_isPrefixOf_head (a b : Char) (l : List Char) (hne : a ≠ b)
    (h : List.isPrefixOf [a] l = true) : List.isPrefixOf [b] l = false := by
  cases l with
  | nil => simp [List.isPrefixOf] at h
  | cons c cs =>
    simp [List.isPrefixOf] at h ⊢
    intro hb
    exact hne (by rw [h, hb])

/-- A target starting with `#` does not start with `.`. -/
theorem hash_not_dot (t : String) (h : pyStartsWith t "#" = true) :
    pyStartsWith t "." = false := by
  unfold pyStartsWith at *
  exact singleton_isPrefixOf_head '#' '.' t.data (by decide) h

/-- The attempted-selector list after the strategy loop has processed
`strats`, starting from `attempted` (recording each selector once). -/
def clickAttemptedAfter (attempted : List String) : List (String × Bool) → List String
  | [] => attempted
  | (sel, _) :: rest =>
    clickAttemptedAfter (if sel ∈ attempted then attempted else attempted ++ [sel]) rest

/-- The last underlying error after the strategy loop has processed `strats`
when every attempted click fails with `err selector` (skipped strategies do
not touch it). -/
def clickLastErr (err : String → String) (lastErr : Option String) :
    List (String × Bool) → Option String
  | [] => lastErr
  | (sel, act) :: rest => clickLastErr err (if act then some (err sel) else lastErr) rest

/-- When every click on the page fails, the strategy loop returns the
`ActionExecutionError` built from the recorded selectors and the last
underlying error. -/
theorem clickLoop_all_fail (page : String → Except String Unit)
    (err : String → String) (t : String) (hfail : ∀ s, page s = .error (err s)) :
    ∀ (strats : List (String × Bool)) (attempted : List String)
      (lastErr : Option String),
      clickLoop page t strats attempted lastErr = .error
        { message := "Could not click element: '" ++ t ++ "'. Tried "
            ++ toString (clickAttemptedAfter attempted strats).length
            ++ " selectors.",
          attempted_selectors := clickAttemptedAfter attempted strats,
          original_error := clickLastErr err lastErr strats } := by
  intro strats
  induction strats with
  | nil =>
    intro attempted lastErr
    simp [clickLoop, clickAttemptedAfter, clickLastErr]
  | cons pr rest ih =>
    intro attempted lastErr
    obtain ⟨sel, act⟩ := pr
    cases act with
    | false => simp [clickLoop, clickAttemptedAfter, clickLastErr, ih]
    | true => simp [clickLoop, clickAttemptedAfter, clickLastErr, hfail, ih]

/-- C9: for every click whose target matches no element under any strategy,
`_click` raises an `ActionExecutionError` whose attempted-selector list has
length exactly 8 — the number of click strategies — and which carries the
last underlying error (the error of the last strategy that actually ran). -/
theorem c9_click_exhaustive_failure (page : String → Except String Unit)
    (err : String → String) (t : String)
    (hfail : ∀ s, page s = .error (err s)) :
    ∃ msg att lastE, clickAction page t = .error ⟨msg, att, lastE⟩
      ∧ att.length = 8
      ∧ lastE = some (err (lastClickSelector t)) := by
  have n21 : "button:has-text(\"" ++ t ++ "\")" ≠ "text=\"" ++ t ++ "\"" := by
    rw [strAppendAssoc, strAppendAssoc]
    exact strNeOfMismatch _ _ _ _ 0 (by decide) (by decide) (by decide)
  have n31 : "a:has-text(\"" ++ t ++ "\")" ≠ "text=\"" ++ t ++ "\"" := by
    rw [strAppendAssoc, strAppendAssoc]
    exact strNeOfMismatch _ _ _ _ 0 (by decide) (by decide) (by decide)
  have n32 : "a:has-text(\"" ++ t ++ "\")" ≠ "button:has-text(\"" ++ t ++ "\")" := by
    rw [strAppendAssoc, strAppendAssoc]
    exact strNeOfMismatch _ _ _ _ 0 (by decide) (by decide) (by decide)
  have n41 : "[aria-label=\"" ++ t ++ "\"]" ≠ "text=\"" ++ t ++ "\"" := by
    rw [strAppendAssoc, strAppendAssoc]
    exact strNeOfMismatch _ _ _ _ 0 (by decide) (by decide) (by decide)
  have n42 : "[aria-label=\"" ++ t ++ "\"]" ≠ "button:has-text(\"" ++ t ++ "\")" := by
    rw [strAppendAssoc, strAppendAssoc]
    exact strNeOfMismatch _ _ _ _ 0 (by decide) (by decide) (by decide)
  have n43 : "[aria-label=\"" ++ t ++ "\"]" ≠ "a:has-text(\"" ++ t ++ "\")" := by
    rw [strAppendAssoc, strAppendAssoc]
    exact strNeOfMismatch _ _ _ _ 0 (by decide) (by decide) (by decide)
  have n51 : "[title=\"" ++ t ++ "\"]" ≠ "text=\"" ++ t ++ "\"" := by
    rw [strAppendAssoc, strAppendAssoc]
    exact strNeOfMismatch _ _ _ _ 0 (by decide) (by decide) (by decide)
  have n52 : "[title=\"" ++ t ++ "\"]" ≠ "button:has-text(\"" ++ t ++ "\")" := by
    rw [strAppendAssoc, strAppendAssoc]
    exact strNeOfMismatch _ _ _ _ 0 (by decide) (by decide) (by decide)
  have n53 : "[title=\"" ++ t ++ "\"]" ≠ "a:has-text(\"" ++ t ++ "\")" := by
    rw [strAppendAssoc, strAppendAssoc]
    exact strNeOfMismatch _ _ _ _ 0 (by decide) (by decide) (by decide)
  have n54 : "[title=\"" ++ t ++ "\"]" ≠ "[aria-label=\"" ++ t ++ "\"]" := by
    rw [strAppendAssoc, strAppendAssoc]
    exact strNeOfMismatch _ _ _ _ 1 (by decide) (by decide) (by decide)
  have n61 : "text=/" ++ t ++ "/i" ≠ "text=\"" ++ t ++ "\"" := by
    rw [strAppendAssoc, strAppendAssoc]
    exact strNeOfMismatch _ _ _ _ 5 (by decide) (by decide) (by decide)
  have n62 : "text=/" ++ t ++ "/i" ≠ "button:has-text(\"" ++ t ++ "\")" := by
    rw [strAppendAssoc, strAppendAssoc]
    exact strNeOfMismatch _ _ _ _ 0 (by decide) (by decide) (by decide)
  have n63 : "text=/" ++ t ++ "/i" ≠ "a:has-text(\"" ++ t ++ "\")" := by
    rw [strAppendAssoc, strAppendAssoc]
    exact strNeOfMismatch _ _ _ _ 0 (by decide) (by decide) (by decide)
  have n64 : "text=/" ++ t ++ "/i" ≠ "[aria-label=\"" ++ t ++ "\"]" := by
    rw [strAppendAssoc, strAppendAssoc]
    exact strNeOfMismatch _ _ _ _ 0 (by decide) (by decide) (by decide)
  have n65 : "text=/" ++ t ++ "/i" ≠ "[title=\"" ++ t ++ "\"]" := by
    rw [strAppendAssoc, strAppendAssoc]
    exact strNeOfMismatch _ _ _ _ 0 (by decide) (by decide) (by decide)
  have n71 : "#" ++ t ≠ "text=\"" ++ t ++ "\"" := by
    rw [strAppendAssoc]
    exact strNeOfMismatch _ _ _ _ 0 (by decide) (by decide) (by decide)
  have n72 : "#" ++ t ≠ "button:has-text(\"" ++ t ++ "\")" := by
    rw [strAppendAssoc]
    exact strNeOfMismatch _ _ _ _ 0 (by decide) (by decide) (by decide)
  have n73 : "#" ++ t ≠ "a:has-text(\"" ++ t ++ "\")" := by
    rw [strAppendAssoc]
    exact strNeOfMismatch _ _ _ _ 0 (by decide) (by decide) (by decide)
  have n74 : "#" ++ t ≠ "[aria-label=\"" ++ t ++ "\"]" := by
    rw [strAppendAssoc]
    exact strNeOfMismatch _ _ _ _ 0 (by decide) (by decide) (by decide)
  have n75 : "#" ++ t ≠ "[title=\"" ++ t ++ "\"]" := by
    rw [strAppendAssoc]
    exact strNeOfMismatch _ _ _ _ 0 (by decide) (by decide) (by decide)
  have n76 : "#" ++ t ≠ "text=/" ++ t ++ "/i" := by
    rw [strAppendAssoc]
    exact strNeOfMismatch _ _ _ _ 0 (by decide) (by decide) (by decide)
  have n81 : "." ++ t ≠ "text=\"" ++ t ++ "\"" := by
    rw [strAppendAssoc]
    exact strNeOfMismatch _ _ _ _ 0 (by decide) (by decide) (by decide)
  have n82 : "." ++ t ≠ "button:has-text(\"" ++ t ++ "\")" := by
    rw [strAppendAssoc]
    exact strNeOfMismatch _ _ _ _ 0 (by decide) (by decide) (by decide)
  have n83 : "." ++ t ≠ "a:has-text(\"" ++ t ++ "\")" := by
    rw [strAppendAssoc]
    exact strNeOfMismatch _ _ _ _ 0 (by decide) (by decide) (by decide)
  have n84 : "." ++ t ≠ "[aria-label=\"" ++ t ++ "\"]" := by
    rw [strAppendAssoc]
    exact strNeOfMismatch _ _ _ _ 0 (by decide) (by decide) (by decide)
  have n85 : "." ++ t ≠ "[title=\"" ++ t ++ "\"]" := by
    rw [strAppendAssoc]
    exact strNeOfMismatch _ _ _ _ 0 (by decide) (by decide) (by decide)
  have n86 : "." ++ t ≠ "text=/" ++ t ++ "/i" := by
    rw [strAppendAssoc]
    exact strNeOfMismatch _ _ _ _ 0 (by decide) (by decide) (by decide)
  have n87 : "." ++ t ≠ "#" ++ t := by
    exact strNeOfMismatch _ _ _ _ 0 (by decide) (by decide) (by decide)
  have hlen : (clickAttemptedAfter [] (clickStrategies t)).length = 8 := by
    simp [clickStrategies, clickAttemptedAfter, n21, n31, n32, n41, n42, n43, n51, n52, n53, n54, n61, n62, n63, n64, n65, n71, n72, n73, n74, n75, n76, n81, n82, n83, n84, n85, n86, n87]
  have hlast : clickLastErr err none (clickStrategies t)
      = some (err (lastClickSelector t)) := by
    by_cases h7 : pyStartsWith t "#" = true
    · have h8 := hash_not_dot t h7
      simp [clickStrategies, clickLastErr, lastClickSelector, h7, h8]
    · have h7f : pyStartsWith t "#" = false := by simpa using h7
      by_cases h8 : pyStartsWith t "." = true
      · simp [clickStrategies, clickLastErr, lastClickSelector, h7f, h8]
      · have h8f : pyStartsWith t "." = false := by simpa using h8
        simp [clickStrategies, clickLastErr, lastClickSelector, h7f, h8f]
  refine ⟨"Could not click element: '" ++ t ++ "'. Tried "
        ++ toString (clickAttemptedAfter [] (clickStrategies t)).length
        ++ " selectors.",
    clickAttemptedAfter [] (clickStrategies t),
    clickLastErr err none (clickStrategies t), ?_, hlen, hlast⟩
  unfold clickAction
  exact clickLoop_all_fail page err t hfail (clickStrategies t) [] none

/-- A page capability on which every click fails. -/
def demoFailingPage : String → Except String Unit :=
  fun s => .error ("no element matching " ++ s)

/-- The error text `demoFailingPage` produces for a selector. -/
def demoPageErr (s : String) : String := "no element matching " ++ s

/-- Witness for C9: a concrete page on which every selector fails, clicked on
target `Submit`. -/
theorem c9_click_exhaustive_failure_witness :
    ∃ msg att lastE, clickAction demoFailingPage "Submit" = .error ⟨msg, att, lastE⟩
      ∧ att.length = 8
      ∧ lastE = some (demoPageErr (lastClickSelector "Submit")) :=
  c9_click_exhaustive_failure demoFailingPage demoPageErr "Submit" (fun _ => rfl)

/-! ## C7 -/

/-- When every action before `a` succeeds and `a` fails, the action loop
stops at `a` with its error — the actions after `a` are never consulted. -/
theorem runActions_stops_at_failure (runAction : Action → Except ActionError Unit)
    (pre : List Action) (a : Action) (post : List Action) (e : ActionError)
    (hpre : ∀ b ∈ pre, runAction b = .ok ()) (ha : runAction a = .error e) :
    runActions runAction (pre ++ a :: post) = .error e := by
  induction pre with
  | nil => simp [runActions, ha]
  | cons b rest ih =>
    have hb : runAction b = .ok () := hpre b (by simp)
    simp only [List.cons_append, runActions, hb]
    exact ih (fun x hx => hpre x (by simp [hx]))

/-- A page state available for capture. -/
def demoPageState : PageState :=
  { url := "http://localhost/", title := "Demo", screenshot := [137, 80],
    html := "<html></html>" }

/-- A capture capability that succeeds with `demoPageState`. -/
def okCapture : Except String PageState := .ok demoPageState

/-- A verification the scenarios use. -/
def loginVerification : Verification :=
  { text := "the login form is visible", severity := .major,
    description := "the login form is visible" }

/-- An AI capability that passes everything with confidence 90. -/
def okVerify : Verification → Except String VerificationResult :=
  fun w => .ok { requirement := w.text, passed := true, confidence := 90,
                 issues := [], ai_reasoning := none, duration_ms := none }

/-- The resolver error of the failing click. -/
def failErrC7 : ActionError :=
  { message := "Could not click element: 'Login'. Tried 8 selectors.",
    attempted_selectors := ["text=\"Login\"", "button:has-text(\"Login\")",
      "a:has-text(\"Login\")", "[aria-label=\"Login\"]", "[title=\"Login\"]",
      "text=/Login/i", "#Login", ".Login"],
    original_error := some "no element matching text=/Login/i" }

/-- An action resolver on which every action fails with `failErrC7`. -/
def failRunAction : Action → Except ActionError Unit := fun _ => .error failErrC7

/-- The click action of the failing step. -/
def clickLoginAction : Action :=
  { type := .click, target := "Login", value := none,
    description := "click Login", wait_after_ms := 500 }

/-- A step with one click action and one verification. -/
def loginStep : TestStep :=
  { step_number := 1, description := "Open the login page",
    verifications := [loginVerification], actions := [clickLoginAction],
    expected_page := none, expected_elements := [] }

/-- C7 counterexample: when the action fails, the returned `StepResult` is
FAILED with the resolver's diagnostic, but NO page snapshot is captured —
`screenshot` and `html_snapshot` are `None` even though the capture
capability was available — contradicting the claim that one `PageState`
snapshot is still captured after the failing action. -/
theorem c7_counterexample :
    (executeStep failRunAction okCapture okVerify loginStep).status = .failed
    ∧ (executeStep failRunAction okCapture okVerify loginStep).screenshot = none
    ∧ (executeStep failRunAction okCapture okVerify loginStep).html_snapshot = none
    ∧ (executeStep failRunAction okCapture okVerify loginStep).error_message
        = some (pyStrip (aeToString failErrC7)) :=
  ⟨rfl, rfl, rfl, rfl⟩

/-- C7 (amended): `execute_step` is total (never propagates an exception);
when an action fails with an `ActionExecutionError`, the remaining actions
are not executed and the result is the FAILED `StepResult` carrying the
resolver's diagnostic as `error_message` — with no verification results and
no page snapshot (`screenshot` and `html_snapshot` are `None`). -/
theorem c7_action_failure_result (runAction : Action → Except ActionError Unit)
    (capture : Except String PageState)
    (verify : Verification → Except String VerificationResult)
    (step : TestStep) (pre : List Action) (a : Action) (post : List Action)
    (e : ActionError)
    (hsplit : step.actions = pre ++ a :: post)
    (hpre : ∀ b ∈ pre, runAction b = .ok ())
    (ha : runAction a = .error e) :
    executeStep runAction capture verify step
      = failedStepResult step (aeToString e) := by
  unfold executeStep
  rw [hsplit, runActions_stops_at_failure runAction pre a post e hpre ha]

/-- Witness for C7: the concrete failing step. -/
theorem c7_action_failure_result_witness :
    executeStep failRunAction okCapture okVerify loginStep
      = failedStepResult loginStep (aeToString failErrC7) :=
  c7_action_failure_result failRunAction okCapture okVerify loginStep
    [] clickLoginAction [] failErrC7 rfl (by simp) rfl

/-! ## C8 -/

/-- A capability that fails for every requirement with error text `boom`. -/
def boomVerify : Verification → Except String VerificationResult :=
  fun _ => .error "boom"

/-- A step with no actions and one verification. -/
def checkStep : TestStep :=
  { step_number := 1, description := "Check the page",
    verifications := [loginVerification], actions := [],
    expected_page := none, expected_elements := [] }

/-- C8 counterexample: a capability failure with error text `boom` yields a
synthetic result whose `ai_reasoning` is `Verification error: boom`, not the
bare error text `boom` the claim states; the other synthetic fields and the
attribution are as claimed. -/
theorem c8_counterexample :
    ((executeStep (fun _ => .ok ()) okCapture boomVerify checkStep).verifications.map
        (fun r => (r.requirement, r.passed, r.confidence, r.ai_reasoning)))
      = [("the login form is visible", false, 0, some "Verification error: boom")]
    ∧ "Verification error: boom" ≠ "boom" := by
  exact ⟨by decide, by decide⟩

/-- The action loop succeeds when every action succeeds. -/
theorem runActions_all_ok (runAction : Action → Except ActionError Unit)
    (acts : List Action) (h : ∀ a ∈ acts, runAction a = .ok ()) :
    runActions runAction acts = .ok () := by
  induction acts with
  | nil => rfl
  | cons a rest ih =>
    have ha : runAction a = .ok () := h a (by simp)
    simp only [runActions, ha]
    exact ih (fun x hx => h x (by simp [hx]))

/-- The synthetic failed result is what the `VerificationResult` constructor
produces for a capability error, provided the requirement text is not
blank. -/
theorem mkVerificationResult_synthetic (w : Verification) (m : String)
    (h : pyStrip w.text ≠ "") :
    mkVerificationResult w.text false 0 [] (some ("Verification error: " ++ m)) none
      = .ok (syntheticVR w m) := by
  unfold mkVerificationResult syntheticVR
  rw [if_neg h, if_neg (by norm_num)]
  rfl

/-- The verification loop evaluates every requirement, in order, converting
capability failures into synthetic failed results. -/
theorem verifyLoop_maps_outcomes (verify : Verification → Except String VerificationResult)
    (ws : List Verification) (h : ∀ w ∈ ws, pyStrip w.text ≠ "") :
    verifyLoop verify ws = .ok (ws.map (verifyOutcome verify)) := by
  induction ws with
  | nil => rfl
  | cons w rest ih =>
    have hrest := ih (fun x hx => h x (by simp [hx]))
    cases hv : verify w with
    | ok r =>
      simp only [verifyLoop, hv, hrest, List.map_cons]
      have : verifyOutcome verify w = r := by
        unfold verifyOutcome
        rw [hv]
      rw [this]
    | error m =>
      have hw : pyStrip w.text ≠ "" := h w (by simp)
      simp only [verifyLoop, hv, mkVerificationResult_synthetic w m hw, hrest,
        List.map_cons]
      have : verifyOutcome verify w = syntheticVR w m := by
        unfold verifyOutcome
        rw [hv]
      rw [this]

/-- Evaluation of the `StepResult` constructor on the success path. -/
theorem mkStepResult_ok_eq (n : Int) (d : String) (st : StepStatus)
    (vrs : List VerificationResult) (shot : List Nat) (html : Option String)
    (issues : List Issue) (hn : 1 ≤ n) (hd : pyStrip d ≠ "") (hs : shot ≠ []) :
    mkStepResult n d st vrs (some shot) html issues none none
      = .ok { step_number := n, description := pyStrip d, status := st,
              verifications := vrs, screenshot := some shot,
              html_snapshot := html, issues := issues, duration_ms := none,
              error_message := none } := by
  unfold mkStepResult
  rw [if_neg (by omega), if_neg hd]
  have h1 : (Option.some shot).any (fun b => b.isEmpty) = false := by
    simp [Option.any, List.isEmpty_iff, hs]
  have h2 : (Option.none : Option Int).any (fun x => decide (x < 0)) = false := rfl
  simp [h1, h2]

/-- C8 (amended): when the actions succeed and the page state is captured, a
capability failure for one requirement is converted into the synthetic failed
`VerificationResult` — `passed = false`, `confidence = 0`, `requirement` the
failing requirement's text, `ai_reasoning` the text `Verification error: `
followed by the error text — while the step still completes and every other
requirement is still evaluated, each to its own outcome, in order. -/
theorem c8_verification_failure_isolated
    (runAction : Action → Except ActionError Unit)
    (capture : Except String PageState)
    (verify : Verification → Except String VerificationResult)
    (step : TestStep) (st : PageState)
    (hact : ∀ a ∈ step.actions, runAction a = .ok ())
    (hcap : capture = .ok st)
    (hshot : st.screenshot ≠ [])
    (hnum : 1 ≤ step.step_number)
    (hdesc : pyStrip step.description ≠ "")
    (hreq : ∀ w ∈ step.verifications, pyStrip w.text ≠ "") :
    (executeStep runAction capture verify step).verifications
      = step.verifications.map (verifyOutcome verify)
    ∧ ∀ w m, verify w = .error m →
        verifyOutcome verify w = syntheticVR w m
        ∧ (syntheticVR w m).passed = false
        ∧ (syntheticVR w m).confidence = 0
        ∧ (syntheticVR w m).requirement = pyStrip w.text
        ∧ (syntheticVR w m).ai_reasoning
            = some (pyStrip ("Verification error: " ++ m)) := by
  constructor
  · have h1 := runActions_all_ok runAction step.actions hact
    have h2 := verifyLoop_maps_outcomes verify step.verifications hreq
    have h3 := mkStepResult_ok_eq step.step_number step.description
      (calculateStepStatus (step.verifications.map (verifyOutcome verify)))
      (step.verifications.map (verifyOutcome verify)) st.screenshot
      (some st.html) (extractIssues (step.verifications.map (verifyOutcome verify)))
      hnum hdesc hshot
    unfold executeStep
    simp only [h1, hcap, h2, h3]
  · intro w m hv
    refine ⟨?_, rfl, rfl, rfl, ?_⟩
    · unfold verifyOutcome
      rw [hv]
    · rfl

/-- Witness for C8: the concrete failing capability on `checkStep`. -/
theorem c8_verification_failure_isolated_witness :
    ((executeStep (fun _ => .ok ()) okCapture boomVerify checkStep).verifications
      = checkStep.verifications.map (verifyOutcome boomVerify))
    ∧ ∀ w m, boomVerify w = .error m →
        verifyOutcome boomVerify w = syntheticVR w m
        ∧ (syntheticVR w m).passed = false
        ∧ (syntheticVR w m).confidence = 0
        ∧ (syntheticVR w m).requirement = pyStrip w.text
        ∧ (syntheticVR w m).ai_reasoning
            = some (pyStrip ("Verification error: " ++ m)) :=
  c8_verification_failure_isolated (fun _ => .ok ()) okCapture boomVerify
    checkStep demoPageState (by simp [checkStep]) rfl (by decide) (by decide)
    (by decide) (by decide)

/-! ## C4 -/

/-- Scenario C: a document whose two steps carry the same number. -/
def scenarioCDoc : String := "1. Step one.\n1. Step one again."

/-- C4: parsing a document with duplicate step numbers fails (Scenario C),
and a successful `parse` never returns a suite whose step numbers contain
duplicates. -/
theorem c4_duplicate_steps_rejected (name content : String) (s : TestSuite)
    (h : parseRequirements name content = .ok s) :
    exceptOk (parseRequirements "Test" scenarioCDoc) = false
    ∧ (s.steps.map TestStep.step_number).Nodup := by
  refine ⟨by rfl, ?_⟩
  unfold parseRequirements at h
  split at h
  · cases h
  · split at h
    · cases h
    · split at h
      · cases h
      · split at h
        · cases h
        · split at h
          · cases h
          · split at h
            · cases h
            · cases h
              obtain ⟨hsteps, hnodup, hsorted⟩ :=
                mkTestSuite_ok _ _ _ _ _ _ (by assumption)
              rw [hsteps]
              exact hnodup

/-- A one-step document whose parse succeeds. -/
def demoDoc : String := "1. Alpha beta."

/-- The suite `demoDoc` parses to. -/
def demoParsedSuite : TestSuite :=
  { name := "Demo",
    steps := [{ step_number := 1, description := "Alpha beta.",
                verifications := [], actions := [], expected_page := none,
                expected_elements := [] }],
    global_requirements := [], description := none, source_file := none }

set_option maxRecDepth 100000 in
/-- Witness for C4: instantiated at a successfully parsed one-step suite. -/
theorem c4_duplicate_steps_rejected_witness :
    exceptOk (parseRequirements "Test" scenarioCDoc) = false
    ∧ (demoParsedSuite.steps.map TestStep.step_number).Nodup :=
  c4_duplicate_steps_rejected "Demo" demoDoc demoParsedSuite (by rfl)

/-! ## C5 -/

/-- Scenario A's requirement document. -/
def scenarioADoc : String :=
  "For all pages:\n- Make sure the logo is visible\n1. Go to the homepage.\nClick on 'Login'.\nVerify that the login form is visible."

/-- The global requirement Scenario A extracts. -/
def logoVerification : Verification :=
  { text := "the logo is visible", severity := .major,
    description := "Make sure the logo is visible" }

/-- The local requirement Scenario A extracts. -/
def loginFormVerification : Verification :=
  { text := "the login form is visible", severity := .major,
    description := "Verify that the login form is visible." }

/-- The step Scenario A parses to: the global and local verifications, and
two actions — the sentence `Go to the homepage.` yields a NAVIGATE action
with target `homepage` before the CLICK on `Login`. -/
def scenarioAStep : TestStep :=
  { step_number := 1, description := "Go to the homepage.",
    verifications := [logoVerification, loginFormVerification],
    actions :=
      [{ type := .navigate, target := "homepage", value := none,
         description := "Go to the homepage.", wait_after_ms := 500 },
       { type := .click, target := "Login", value := none,
         description := "Click on 'Login'.", wait_after_ms := 500 }],
    expected_page := none, expected_elements := [] }

/-- The suite Scenario A parses to. -/
def scenarioASuite : TestSuite :=
  { name := "Test", steps := [scenarioAStep],
    global_requirements := [logoVerification],
    description := none, source_file := none }

set_option maxRecDepth 100000 in
/-- C5 counterexample: Scenario A's single step has TWO actions — a NAVIGATE
with target `homepage` (extracted from `Go to the homepage.`) followed by the
CLICK with target `Login` — not exactly one action as the claim states. -/
theorem c5_counterexample :
    (parseRequirements "Test" scenarioADoc).map
        (fun s => s.steps.map (fun st => st.actions.map (fun a => (a.type, a.target))))
      = .ok [[(.navigate, "homepage"), (.click, "Login")]] := by
  rfl

set_option maxRecDepth 100000 in
/-- C5 (amended): Scenario A parses to a suite with exactly 1 step, whose
verification list has exactly the global requirement `the logo is visible`
followed by the local `the login form is visible`, and whose action list has
exactly 2 actions: NAVIGATE with target `homepage`, then CLICK with target
`Login`. -/
theorem c5_scenario_a_parse :
    parseRequirements "Test" scenarioADoc = .ok scenarioASuite := by
  rfl

/-! ## C6 -/

/-- A sentence containing the keyword `nice to have` and none of the six
keywords the claim lists. -/
def niceToHaveSentence : String := "Verify that the footer is present, nice to have."

/-- C6 counterexample: the code assigns MINOR to a verification whose
sentence contains `nice to have` — a keyword outside the claim's list — where
the claim's rule yields MAJOR. -/
theorem c6_counterexample :
    extractVerifications niceToHaveSentence
      = .ok [{ text := "the footer is present, nice to have", severity := .minor,
               description := niceToHaveSentence }]
    ∧ claimSeverityRule niceToHaveSentence = .major :=
  ⟨by rfl, by rfl⟩

/-- Shape of a successful `mkVerification` with an explicit description. -/
theorem mkVerification_ok_shape (t : String) (sev : Severity) (d : String)
    (v : Verification) (h : mkVerification t sev (some d) = .ok v) :
    v.severity = sev ∧ v.description = pyStrip d := by
  unfold mkVerification at h
  by_cases ht : pyStrip t = ""
  · rw [if_pos ht] at h
    cases h
  · rw [if_neg ht] at h
    cases h
    exact ⟨rfl, rfl⟩

/-- Every verification the pattern loop appends carries the keyword severity
of its (stripped) source sentence, which becomes its description. -/
theorem verifTryPatterns_shape (s : String) :
    ∀ (pats : List RE) (seen : List String) (res : List String × Option Verification),
      verifTryPatterns seen s pats = .ok res →
      ∀ v, res.2 = some v →
        v.severity = severityFromSentence s ∧ v.description = pyStrip s := by
  intro pats
  induction pats with
  | nil =>
    intro seen res h v hv
    unfold verifTryPatterns at h
    cases h
    cases hv
  | cons p ps ih =>
    intro seen res h v hv
    unfold verifTryPatterns at h
    split at h
    · exact ih seen res h v hv
    · split at h
      · exact ih seen res h v hv
      · split at h
        · exact ih seen res h v hv
        · split at h
          · cases h
          · cases h
            cases hv
            exact mkVerification_ok_shape _ _ _ _ (by assumption)

/-- Every verification the sentence loop produces carries the keyword
severity of its own description. -/
theorem verifLoop_severity (sents : List String) :
    ∀ (seen : List String) (vs : List Verification),
      verifLoop seen sents = .ok vs →
      ∀ v ∈ vs, v.severity = severityFromSentence v.description := by
  induction sents with
  | nil =>
    intro seen vs h v hv
    cases h
    cases hv
  | cons s₀ rest ih =>
    intro seen vs h v hv
    unfold verifLoop at h
    split at h
    · exact ih _ vs h v hv
    · split at h
      · cases h
      · exact ih _ vs h v hv
      · split at h
        · cases h
        · cases h
          rcases List.mem_cons.mp hv with hveq | hvmem
          · subst hveq
            obtain ⟨hsev, hdesc⟩ :=
              verifTryPatterns_shape (pyStrip s₀) verificationPatterns seen _
                (by assumption) v rfl
            rw [hsev, hdesc, pyStrip_idem]
          · exact ih _ _ (by assumption) v hvmem

/-- C6 (amended): for every sentence from which a verification is extracted,
the assigned severity is CRITICAL when the sentence contains any of
`critical`, `must`, `required`, `has to`; otherwise MINOR when it contains
any of `should`, `preferably`, `nice to have`; otherwise MAJOR.  The
sentence is recorded as the verification's description, so the rule is
stated against it. -/
theorem c6_severity_rule (text : String) (vs : List Verification)
    (v : Verification) (hok : extractVerifications text = .ok vs)
    (hmem : v ∈ vs) :
    v.severity = severityRuleAmended v.description := by
  have h := verifLoop_severity (splitIntoSentences text) [] vs hok v hmem
  rw [h]
  rfl

/-- A sentence with no severity keyword at all. -/
def demoVerifSentence : String := "Verify that the page loads."

/-- The verification extracted from `demoVerifSentence`. -/
def demoVerifValue : Verification :=
  { text := "the page loads", severity := .major,
    description := demoVerifSentence }

set_option maxRecDepth 100000 in
/-- Witness for C6: the concrete extraction from `demoVerifSentence`. -/
theorem c6_severity_rule_witness :
    demoVerifValue.severity = severityRuleAmended demoVerifValue.description :=
  c6_severity_rule demoVerifSentence [demoVerifValue] demoVerifValue
    (by rfl) (by simp)

end AVT
